import Mathlib
/-!
Verification development for the GOPM (Ground Operations Procedures Manual)
rules engine of the oap-backend repository.

The Python sources embedded here are `nxs_gopm_rules.py` (MGT lookup,
activity-breakdown lookup, delivery-before-STD lookup) and the
aircraft-alias extraction helpers of `nxs_brain.py`.

Modelling conventions:
- Python `dict` literals become association lists (`List (String × α)`)
  looked up with `dget`; insertion order and key uniqueness of the source
  dictionaries are preserved verbatim.
- Python `str.strip` / `str.upper` / `str.lower` / `str.split(":")` are
  modelled character-by-character over `String.data` (`pyStrip`, `pyUpper`,
  `pyLower`, `splitOnColon`).  The model covers the ASCII range, which is
  the alphabet of every table key, rule constant and error message in the
  source module.
- Python `int(...)` applied to the digit fields of an `"HH:MM"` literal is
  modelled by `parseNat` (digit strings only; every string it is applied to
  in the source data is a plain digit string).
- Python exceptions become `Except PyErr`, with the exception class and the
  exact message text of each `raise` site preserved (`\x27` denotes the
  ASCII single-quote character appearing in the source f-strings).
- Python `float` table entries (all of them integral-valued decimal
  literals, exactly representable) are modelled as `Rat`.
-/

-- ===========================================================================
-- Definitions
-- ===========================================================================

/-- Python/Lean error value: `ValueError` or `KeyError` with its message. -/
inductive PyErr where
  | valueError (msg : String)
  | keyError (msg : String)
deriving DecidableEq, Repr

/-- The ASCII whitespace characters removed by Python `str.strip()`
(space, tab, newline, carriage return, vertical tab, form feed),
identified by code point. -/
def isPyWs (c : Char) : Bool :=
  c.toNat = 32 || c.toNat = 9 || c.toNat = 10 || c.toNat = 13 ||
    c.toNat = 11 || c.toNat = 12

/-- `str.strip()` on the underlying character list: drop whitespace from
both ends. -/
def pyStripL (l : List Char) : List Char :=
  ((l.dropWhile isPyWs).reverse.dropWhile isPyWs).reverse

/-- Python `str.strip()` (ASCII model). -/
def pyStrip (s : String) : String :=
  ⟨pyStripL s.data⟩

/-- Per-character model of Python `str.upper()` (ASCII range). -/
def pyUpperChar (c : Char) : Char :=
  if 97 ≤ c.toNat ∧ c.toNat ≤ 122 then Char.ofNat (c.toNat - 32) else c

/-- Per-character model of Python `str.lower()` (ASCII range). -/
def pyLowerChar (c : Char) : Char :=
  if 65 ≤ c.toNat ∧ c.toNat ≤ 90 then Char.ofNat (c.toNat + 32) else c

/-- Python `str.upper()` (ASCII model). -/
def pyUpper (s : String) : String :=
  ⟨s.data.map pyUpperChar⟩

/-- Python `str.lower()` (ASCII model). -/
def pyLower (s : String) : String :=
  ⟨s.data.map pyLowerChar⟩

/-- The digit character for `n < 10` (`'0'` has code 48). -/
def pyDigitChar (n : Nat) : Char :=
  Char.ofNat (48 + n)

/-- Decimal digits, most significant first, with enough fuel to terminate
(structural recursion so that concrete values reduce definitionally). -/
def natToCharsAux : Nat → Nat → List Char
  | 0, _ => []
  | fuel + 1, n =>
    if n < 10 then [pyDigitChar n]
    else natToCharsAux fuel (n / 10) ++ [pyDigitChar (n % 10)]

/-- Decimal digits of a natural number, most significant first
(the characters of Python `str(n)` for `n ≥ 0`). -/
def natToChars (n : Nat) : List Char :=
  natToCharsAux (n + 1) n

/-- The numeric value of a digit character, if it is one. -/
def charToDigit (c : Char) : Option Nat :=
  if 48 ≤ c.toNat ∧ c.toNat ≤ 57 then some (c.toNat - 48) else none

/-- Fold a digit list into a number (positional, base 10). -/
def parseNatAux (acc : Nat) : List Char → Option Nat
  | [] => some acc
  | c :: t =>
    match charToDigit c with
    | some d => parseNatAux (acc * 10 + d) t
    | none => none

/-- Python `int(s)` restricted to nonempty digit strings (the only shape it
is applied to by the embedded module). -/
def parseNat (l : List Char) : Option Nat :=
  match l with
  | [] => none
  | _ :: _ => parseNatAux 0 l

/-- Python `s.split(":")` on the character list. -/
def splitOnColon (l : List Char) : List (List Char) :=
  match l with
  | [] => [[]]
  | c :: t =>
    if c = ':' then [] :: splitOnColon t
    else
      match splitOnColon t with
      | [] => [[c]]
      | h :: r => (c :: h) :: r

/-- Association-list model of Python `dict[k]` / `k in dict`. -/
def dget {α : Type} (d : List (String × α)) (k : String) : Option α :=
  (d.find? (fun p => p.1 == k)).map (fun p => p.2)

/-- Python `f"{n:02d}"` for `n ≥ 0`: pad with a leading zero to width 2. -/
def pad2 (n : Nat) : List Char :=
  if n < 10 then '0' :: natToChars n else natToChars n

/-- `_to_minutes_from_hhmm`: convert `"HH:MM"` to total minutes.
`None` models the `ValueError` Python `int()` raises on a malformed field
(never reachable on the table literals of the module). -/
def _to_minutes_from_hhmm (hhmm : String) : Option Nat :=
  match splitOnColon (pyStripL hhmm.data) with
  | [hh, mm] =>
    match parseNat hh, parseNat mm with
    | some h, some m => some (h * 60 + m)
    | _, _ => none
  | _ => none

/-- `_to_hhmm_from_minutes`: total minutes to zero-padded `"HH:MM"`
(negative inputs are clamped to 0, as in the source). -/
def _to_hhmm_from_minutes (total_minutes : Int) : String :=
  ⟨pad2 ((if total_minutes < 0 then 0 else total_minutes).toNat / 60) ++
    ':' :: pad2 ((if total_minutes < 0 then 0 else total_minutes).toNat % 60)⟩

/-- `MGTCell = Union[str, Tuple[str, str]]`: a plain `"HH:MM"` duration or a
(standard, security-alert) pair. -/
inductive MGTCell where
  | single (v : String)
  | pair (std sa : String)
deriving DecidableEq, Repr

/-- `_pick_mgt_cell` (lines 50-53). -/
def _pick_mgt_cell (cell : MGTCell) (is_security_alert_station : Bool) : String :=
  match cell with
  | .pair std sa => if is_security_alert_station then sa else std
  | .single v => v

/-- `TURNAROUND_MGT` (lines 65-103). -/
def TURNAROUND_MGT : List (String × List (String × List (String × MGTCell))) := [
  ("B777-368/B787-10", [
    ("DOM-DOM", [("JED", .single "01:10"), ("RUH", .single "01:10"),
      ("DMM", .single "01:05"), ("MED", .single "01:05"),
      ("OTHER_DOM_STN", .single "01:00")]),
    ("DOM-INTL", [("JED", .single "01:20"), ("RUH", .single "01:20"),
      ("DMM", .single "01:15"), ("MED", .single "01:15")]),
    ("INTL-DOM", [("JED", .single "01:30"), ("RUH", .single "01:30"),
      ("DMM", .single "01:25"), ("MED", .single "01:25")]),
    ("INTL-INTL", [("JED", .single "01:35"), ("RUH", .single "01:35"),
      ("DMM", .single "01:30"), ("MED", .single "01:30"),
      ("INT_STNS", .pair "01:25" "01:40"),
      ("LONG_HAUL_STN", .pair "01:30" "01:45"),
      ("UK", .single "01:40")])]),
  ("A330/B787-9", [
    ("DOM-DOM", [("JED", .single "01:05"), ("RUH", .single "01:05"),
      ("DMM", .single "00:55"), ("MED", .single "00:55"),
      ("OTHER_DOM_STN", .single "00:50")]),
    ("DOM-INTL", [("JED", .single "01:10"), ("RUH", .single "01:10"),
      ("DMM", .single "01:00"), ("MED", .single "01:00")]),
    ("INTL-DOM", [("JED", .single "01:20"), ("RUH", .single "01:20"),
      ("DMM", .single "01:10"), ("MED", .single "01:10")]),
    ("INTL-INTL", [("JED", .single "01:25"), ("RUH", .single "01:25"),
      ("DMM", .single "01:15"), ("MED", .single "01:15"),
      ("INT_STNS", .pair "01:15" "01:30"),
      ("LONG_HAUL_STN", .pair "01:20" "01:35"),
      ("UK", .single "01:30")])]),
  ("A321/A320", [
    ("DOM-DOM", [("JED", .single "00:45"), ("RUH", .single "00:45"),
      ("DMM", .single "00:40"), ("MED", .single "00:40"),
      ("OTHER_DOM_STN", .single "00:40")]),
    ("DOM-INTL", [("JED", .single "00:50"), ("RUH", .single "00:50"),
      ("DMM", .single "00:45"), ("MED", .single "00:45"),
      ("OTHER_DOM_STN", .single "00:45")]),
    ("INTL-DOM", [("JED", .single "00:55"), ("RUH", .single "00:55"),
      ("DMM", .single "00:50"), ("MED", .single "00:50"),
      ("OTHER_DOM_STN", .single "00:50")]),
    ("INTL-INTL", [("JED", .single "01:00"), ("RUH", .single "01:00"),
      ("DMM", .single "00:55"), ("MED", .single "00:55"),
      ("INT_STNS", .pair "00:55" "01:05")])])]

/-- `TRANSIT_MGT` (lines 105-124). -/
def TRANSIT_MGT : List (String × List (String × List (String × MGTCell))) := [
  ("B777-368/B787-10", [
    ("DOM-DOM", [("JED", .single "01:05"), ("RUH", .single "01:05"),
      ("DMM", .single "01:00"), ("MED", .single "01:00"),
      ("AHB_TUU", .single "00:55"), ("OTHER_DOM_STN", .single "00:50")]),
    ("DOM-INTL", [("JED", .single "01:15"), ("RUH", .single "01:15"),
      ("DMM", .single "01:00"), ("MED", .single "01:00")]),
    ("INTL-DOM", [("JED", .single "00:55"), ("RUH", .single "00:55"),
      ("DMM", .single "00:40"), ("MED", .single "00:40")]),
    ("INTL-INTL", [("INT_STNS", .pair "01:00" "01:15"), ("LHR", .single "01:00")])]),
  ("A330/B787-9", [
    ("DOM-DOM", [("JED", .single "01:00"), ("RUH", .single "01:00"),
      ("DMM", .single "00:45"), ("MED", .single "00:45"),
      ("AHB_TUU", .single "00:55"), ("OTHER_DOM_STN", .single "00:50")]),
    ("DOM-INTL", [("JED", .single "01:10"), ("RUH", .single "01:10"),
      ("DMM", .single "00:45"), ("MED", .single "00:45")]),
    ("INTL-DOM", [("JED", .single "00:45"), ("RUH", .single "00:45"),
      ("DMM", .single "00:35"), ("MED", .single "00:35")]),
    ("INTL-INTL", [("INT_STNS", .pair "01:00" "01:15"), ("LHR", .single "01:00")])]),
  ("A321/A320", [
    ("DOM-DOM", [("JED", .single "00:40"), ("RUH", .single "00:40"),
      ("DMM", .single "00:30"), ("MED", .single "00:30"),
      ("AHB_TUU", .single "00:35"), ("OTHER_DOM_STN", .single "00:35")]),
    ("DOM-INTL", [("JED", .single "00:40"), ("RUH", .single "00:40"),
      ("DMM", .single "00:30"), ("MED", .single "00:30")]),
    ("INTL-DOM", [("JED", .single "00:30"), ("RUH", .single "00:30"),
      ("DMM", .single "00:25"), ("MED", .single "00:25")]),
    ("INTL-INTL", [("INT_STNS", .single "00:30")])])]

/-- Hint constants (lines 145-158). -/
def LOCAL_TOWING_ADD_MINUTES : Nat := 20

def TURNAROUND_MIN_TO_USA_MINUTES : Nat := 170

def TURNAROUND_MIN_TO_KAN_MINUTES : Nat := 120

def TURNAROUND_MIN_TO_ALL_USA_STATIONS_MINUTES : Nat := 120

def TURNAROUND_MIN_TO_SSH_MINUTES : Nat := 75

def LONG_HAUL_STATIONS : List String :=
  ["MNL", "CAN", "YYZ", "IAD", "LAX", "JFK", "KUL", "CGK", "SIN"]

def USA_STATIONS_IN_HINT_LIST : List String := ["YYZ", "IAD", "LAX", "JFK"]

/-- `MGTLookupResult` (lines 164-172). -/
structure MGTLookupResult where
  operation : String
  aircraft_group : String
  movement : String
  station_key : String
  base_mgt : String
  adjusted_mgt : String
  applied_rules : List String
deriving DecidableEq, Repr

/-- Towing overlay (lines 227-230 of `lookup_mgt`): running minutes and
trace before and after the local-towing rule. -/
def applyTowing (apply_local_towing_rule : Bool) (movement station_key : String)
    (acc : Nat × List String) : Nat × List String :=
  if apply_local_towing_rule ∧
      (movement = "DOM-INTL" ∨ movement = "INTL-DOM") ∧
      (station_key = "JED" ∨ station_key = "RUH" ∨ station_key = "JED-T1") then
    (acc.1 + LOCAL_TOWING_ADD_MINUTES,
      acc.2 ++ ["Local towing rule: +20 minutes at JED-T1/RUH for DOM-INTL or INTL-DOM"])
  else acc

/-- Destination floor overlays (lines 234-257 of `lookup_mgt`): the
`if`/`elif` chain over the normalized destination. -/
def applyDestFloors (dest : String) (acc : Nat × List String) : Nat × List String :=
  if dest = "USA" then
    if acc.1 < TURNAROUND_MIN_TO_USA_MINUTES then
      (TURNAROUND_MIN_TO_USA_MINUTES,
        acc.2 ++ ["Turnaround destination minimum: USA => 02:50"])
    else acc
  else if dest ∈ USA_STATIONS_IN_HINT_LIST then
    if acc.1 < TURNAROUND_MIN_TO_ALL_USA_STATIONS_MINUTES then
      (TURNAROUND_MIN_TO_ALL_USA_STATIONS_MINUTES,
        acc.2 ++ ["Turnaround destination minimum: USA stations (JFK/LAX/IAD/YYZ) => 02:00"])
    else acc
  else if dest = "KAN" then
    if acc.1 < TURNAROUND_MIN_TO_KAN_MINUTES then
      (TURNAROUND_MIN_TO_KAN_MINUTES,
        acc.2 ++ ["Turnaround destination minimum: KAN => 02:00"])
    else acc
  else if dest = "SSH" then
    if acc.1 < TURNAROUND_MIN_TO_SSH_MINUTES then
      (TURNAROUND_MIN_TO_SSH_MINUTES,
        acc.2 ++ ["Turnaround destination minimum: SSH => 01:15 (Security/Baggage Identification)"])
    else acc
  else acc

/-- Long-haul elevation (lines 259-268 of `lookup_mgt`): raise the running
value to the applicable `LONG_HAUL_STN` cell value.  The error case models
the `ValueError` Python would raise on an unparsable cell (unreachable on
the concrete tables). -/
def applyLongHaul (dest : String) (row : List (String × MGTCell))
    (is_security_alert_station : Bool) (acc : Nat × List String) :
    Except PyErr (Nat × List String) :=
  if dest ∈ LONG_HAUL_STATIONS then
    match dget row "LONG_HAUL_STN" with
    | some lh_cell =>
      match _to_minutes_from_hhmm (_pick_mgt_cell lh_cell is_security_alert_station) with
      | some lh_minutes =>
        if acc.1 < lh_minutes then
          .ok (lh_minutes, acc.2 ++ ["Long-haul station category applied (LONG_HAUL_STN)"])
        else .ok acc
      | none => .error (.valueError "invalid literal for int() with base 10")
    | none => .ok acc
  else .ok acc

/-- The `if op == "TURNAROUND" and dest:` block (lines 233-268): destination
floors followed by the long-haul elevation, skipped when `dest` is `None`
or empty (Python falsiness). -/
def destinationSection (dest : Option String) (row : List (String × MGTCell))
    (is_security_alert_station : Bool) (acc : Nat × List String) :
    Except PyErr (Nat × List String) :=
  match dest with
  | none => .ok acc
  | some d =>
    if d = "" then .ok acc
    else applyLongHaul d row is_security_alert_station (applyDestFloors d acc)

/-- `lookup_mgt` (lines 174-285). -/
def lookup_mgt (operation aircraft_group movement station : String)
    (destination_station : Option String := none)
    (is_security_alert_station : Bool := false)
    (apply_local_towing_rule : Bool := false) : Except PyErr MGTLookupResult :=
  let op := pyUpper (pyStrip operation)
  let movementN := pyUpper (pyStrip movement)
  let station_key := pyUpper (pyStrip station)
  let dest : Option String :=
    match destination_station with
    | none => none
    | some d => if d = "" then none else some (pyUpper (pyStrip d))
  if ¬(op = "TURNAROUND" ∨ op = "TRANSIT") then
    .error (.valueError ("Unsupported operation: " ++ operation))
  else
    let table := if op = "TURNAROUND" then TURNAROUND_MGT else TRANSIT_MGT
    match dget table aircraft_group with
    | none => .error (.keyError ("Unknown aircraft_group: " ++ aircraft_group))
    | some groupTable =>
      match dget groupTable movementN with
      | none => .error (.keyError ("Unknown movement \x27" ++ movementN ++
          "\x27 for aircraft_group \x27" ++ aircraft_group ++ "\x27"))
      | some row =>
        match dget row station_key with
        | none => .error (.keyError ("Unknown station \x27" ++ station_key ++
            "\x27 for op=" ++ op ++ ", aircraft_group=" ++ aircraft_group ++
            ", movement=" ++ movementN))
        | some base_cell =>
          let base_hhmm := _pick_mgt_cell base_cell is_security_alert_station
          match _to_minutes_from_hhmm base_hhmm with
          | none => .error (.valueError "invalid literal for int() with base 10")
          | some base_minutes =>
            let acc1 := applyTowing apply_local_towing_rule movementN station_key
              (base_minutes, [])
            match (if op = "TURNAROUND" then
                destinationSection dest row is_security_alert_station acc1
              else .ok acc1) with
            | .error e => .error e
            | .ok acc2 =>
              let adjusted_hhmm := _to_hhmm_from_minutes (acc2.1 : Int)
              let applied :=
                if op = "TURNAROUND" ∨ op = "TRANSIT" then
                  acc2.2 ++ ["Note: Mixed flights MGT uses SV aircraft type (see MIXED_FLIGHTS_MGT)"]
                else acc2.2
              .ok {
                operation := op,
                aircraft_group := aircraft_group,
                movement := movementN,
                station_key := station_key,
                base_mgt := base_hhmm,
                adjusted_mgt := adjusted_hhmm,
                applied_rules := applied }

/-- `StarValue` (lines 291-295): minutes with a resource count and its
footnote marker. -/
structure StarValue where
  minutes : Rat
  resource_count : Nat
  footnote : String
deriving DecidableEq, Repr

/-- `_sv` (lines 297-298). -/
def _sv (minutes : Rat) (resource_count : Nat) (footnote : String) : StarValue :=
  { minutes := minutes, resource_count := resource_count, footnote := footnote }

/-- An activity value: `Union[float, str, StarValue]`, plus `obj` for the
nested per-aircraft dictionaries of the combined/mixed table (whose values
are all plain floats in the source). -/
inductive AVal where
  | num (m : Rat)
  | str (s : String)
  | star (sv : StarValue)
  | obj (entries : List (String × Rat))
deriving DecidableEq, Repr

/-- A breakdown table blob (`operation` / `assumptions` / `notes` /
`movements`). -/
structure BreakdownTable where
  operation : String
  assumptions : List String
  notes : List String
  movements : List (String × List (String × AVal))
deriving DecidableEq, Repr

/-- `ActivityBreakdownResult` (lines 300-308). -/
structure ActivityBreakdownResult where
  aircraft_group : String
  operation : String
  movement : String
  activities : List (String × AVal)
  total_or_min_ground_time : AVal
  assumptions : List String
  notes : List String
deriving DecidableEq, Repr

/-- `B777_TURNAROUND` (lines 311-367). -/
def B777_TURNAROUND : BreakdownTable := {
  operation := "TURNAROUND",
  assumptions := ["100% Load Factor"],
  notes := ["Cabin cleaning and galley services are done simultaneously (apply for all aircraft types)."],
  movements := [
    ("DOM-DOM", [("Blocks IN / Door Opening", .num 1), ("PAX deplaning", .num 12),
      ("Custom Clearance", .str "-"), ("Cabin Cleaning", .star (_sv 12 20 "*")),
      ("Galley Service", .star (_sv 17 2 "**")), ("Cabin Security", .num 5),
      ("Passenger Enplaning", .num 26), ("FNLZTN / Door CLSD", .num 3),
      ("BLOCKS OUT", .num 1), ("Total Ground Time", .num 65)]),
    ("DOM-INTL", [("Blocks IN / Door Opening", .num 1), ("PAX deplaning", .num 12),
      ("Custom Clearance", .str "-"), ("Cabin Cleaning", .num 20),
      ("Galley Service", .num 25), ("Cabin Security", .num 5),
      ("Passenger Enplaning", .num 28), ("FNLZTN / Door CLSD", .num 3),
      ("BLOCKS OUT", .num 1), ("Total Ground Time", .num 75)]),
    ("INTL-DOM", [("Blocks IN / Door Opening", .num 1), ("PAX deplaning", .num 12),
      ("Custom Clearance", .num 15), ("Cabin Cleaning", .num 20),
      ("Galley Service", .num 20), ("Cabin Security", .num 5),
      ("Passenger Enplaning", .num 28), ("FNLZTN / Door CLSD", .num 3),
      ("BLOCKS OUT", .num 1), ("Total Ground Time", .num 85)]),
    ("INTL-INTL", [("Blocks IN / Door Opening", .num 1), ("PAX deplaning", .num 12),
      ("Custom Clearance", .num 15), ("Cabin Cleaning", .num 25),
      ("Galley Service", .num 25), ("Cabin Security", .num 5),
      ("Passenger Enplaning", .num 28), ("FNLZTN / Door CLSD", .num 3),
      ("BLOCKS OUT", .num 1), ("Total Ground Time", .num 90)])] }

/-- `B777_TRANSIT` (lines 370-424). -/
def B777_TRANSIT : BreakdownTable := {
  operation := "TRANSIT",
  assumptions := ["50% Load Factor"],
  notes := [],
  movements := [
    ("DOM-DOM", [("Blocks IN / Door Opening", .num 1), ("PAX deplaning", .num 10),
      ("Custom Clearance", .str "-"), ("Cabin Cleaning", .star (_sv 15 20 "*")),
      ("Galley Service", .star (_sv 20 2 "**")), ("Cabin Security", .str "-"),
      ("Passenger Enplaning", .num 25), ("FNLZTN / Door CLSD", .num 3),
      ("BLOCKS OUT", .num 1), ("Total Ground Time", .num 60)]),
    ("DOM-INTL", [("Blocks IN / Door Opening", .num 1), ("PAX deplaning", .str "-"),
      ("Custom Clearance", .str "-"), ("Cabin Cleaning", .num 20),
      ("Galley Service", .num 30), ("Cabin Security", .str "-"),
      ("Passenger Enplaning", .num 25), ("FNLZTN / Door CLSD", .num 3),
      ("BLOCKS OUT", .num 1), ("Total Ground Time", .num 60)]),
    ("INTL-DOM", [("Blocks IN / Door Opening", .num 1), ("PAX deplaning", .num 10),
      ("Custom Clearance", .str "-"), ("Cabin Cleaning", .num 20),
      ("Galley Service", .num 25), ("Cabin Security", .str "-"),
      ("Passenger Enplaning", .str "-"), ("FNLZTN / Door CLSD", .num 3),
      ("BLOCKS OUT", .num 1), ("Total Ground Time", .num 40)]),
    ("INTL-INTL", [("Blocks IN / Door Opening", .str "-"), ("PAX deplaning", .str "-"),
      ("Custom Clearance", .str "-"), ("Cabin Cleaning", .str "-"),
      ("Galley Service", .str "-"), ("Cabin Security", .str "-"),
      ("Passenger Enplaning", .str "-"), ("FNLZTN / Door CLSD", .str "-"),
      ("BLOCKS OUT", .str "-"), ("Total Ground Time", .str "-")])] }

/-- `A330_TRANSIT` (lines 427-481). -/
def A330_TRANSIT : BreakdownTable := {
  operation := "TRANSIT",
  assumptions := ["50% Load Factor"],
  notes := [],
  movements := [
    ("DOM-DOM", [("Blocks IN / Door Opening", .num 1), ("PAX deplaning", .num 5),
      ("Custom Clearance", .str "-"), ("Cabin Cleaning", .star (_sv 15 15 "*")),
      ("Galley Service", .star (_sv 18 2 "**")), ("Cabin Security", .str "-"),
      ("Passenger Enplaning", .num 17), ("FNLZTN / Door CLSD", .num 3),
      ("BLOCKS OUT", .num 1), ("Total Ground Time", .num 45)]),
    ("DOM-INTL", [("Blocks IN / Door Opening", .num 1), ("PAX deplaning", .str "-"),
      ("Custom Clearance", .str "-"), ("Cabin Cleaning", .num 18),
      ("Galley Service", .num 23), ("Cabin Security", .str "-"),
      ("Passenger Enplaning", .num 17), ("FNLZTN / Door CLSD", .num 3),
      ("BLOCKS OUT", .num 1), ("Total Ground Time", .num 45)]),
    ("INTL-DOM", [("Blocks IN / Door Opening", .num 1), ("PAX deplaning", .num 5),
      ("Custom Clearance", .str "-"), ("Cabin Cleaning", .num 18),
      ("Galley Service", .num 25), ("Cabin Security", .str "-"),
      ("Passenger Enplaning", .str "-"), ("FNLZTN / Door CLSD", .num 3),
      ("BLOCKS OUT", .num 1), ("Total Ground Time", .num 35)]),
    ("INTL-INTL", [("Blocks IN / Door Opening", .str "-"), ("PAX deplaning", .str "-"),
      ("Custom Clearance", .str "-"), ("Cabin Cleaning", .str "-"),
      ("Galley Service", .str "-"), ("Cabin Security", .str "-"),
      ("Passenger Enplaning", .str "-"), ("FNLZTN / Door CLSD", .str "-"),
      ("BLOCKS OUT", .str "-"), ("Total Ground Time", .str "-")])] }

/-- `A321_TURNAROUND` (lines 484-538). -/
def A321_TURNAROUND : BreakdownTable := {
  operation := "TURNAROUND",
  assumptions := ["100% Load Factor"],
  notes := [],
  movements := [
    ("DOM-DOM", [("Blocks IN / Door Opening", .num 1), ("PAX deplaning", .num 8),
      ("Custom Clearance", .str "-"), ("Cabin Cleaning", .star (_sv 10 8 "*")),
      ("Galley Services", .star (_sv 10 1 "**")), ("Cabin Security", .num 3),
      ("Passenger Enplaning", .num 14), ("FNLZTN / Door CLSD", .num 3),
      ("BLOCKS OUT", .num 1), ("Total Ground Time", .num 40)]),
    ("DOM-INTL", [("Blocks IN / Door Opening", .num 1), ("PAX deplaning", .num 8),
      ("Custom Clearance", .str "-"), ("Cabin Cleaning", .num 15),
      ("Galley Services", .num 15), ("Cabin Security", .num 3),
      ("Passenger Enplaning", .num 14), ("FNLZTN / Door CLSD", .num 3),
      ("BLOCKS OUT", .num 1), ("Total Ground Time", .num 45)]),
    ("INTL-DOM", [("Blocks IN / Door Opening", .num 1), ("PAX deplaning", .num 8),
      ("Custom Clearance", .num 5), ("Cabin Cleaning", .num 15),
      ("Galley Services", .num 15), ("Cabin Security", .num 3),
      ("Passenger Enplaning", .num 14), ("FNLZTN / Door CLSD", .num 3),
      ("BLOCKS OUT", .num 1), ("Total Ground Time", .num 50)]),
    ("INTL-INTL", [("Blocks IN / Door Opening", .num 1), ("PAX deplaning", .num 8),
      ("Custom Clearance", .num 5), ("Cabin Cleaning", .num 20),
      ("Galley Services", .num 20), ("Cabin Security", .num 3),
      ("Passenger Enplaning", .num 14), ("FNLZTN / Door CLSD", .num 3),
      ("BLOCKS OUT", .num 1), ("Total Ground Time", .num 55)])] }

/-- `A321_TRANSIT` (lines 541-595). -/
def A321_TRANSIT : BreakdownTable := {
  operation := "TRANSIT",
  assumptions := ["50% Load Factor"],
  notes := [],
  movements := [
    ("DOM-DOM", [("Blocks IN / Door Opening", .num 1), ("PAX deplaning", .num 4),
      ("Custom Clearance", .str "-"), ("Cabin Cleaning", .star (_sv 10 8 "*")),
      ("Galley Service", .star (_sv 14 1 "**")), ("Cabin Security", .str "-"),
      ("Passenger Enplaning", .num 7), ("FNLZTN / Door CLSD", .num 3),
      ("BLOCKS OUT", .num 1), ("Total Ground Time", .num 30)]),
    ("DOM-INTL", [("Blocks IN / Door Opening", .num 1), ("PAX deplaning", .str "-"),
      ("Custom Clearance", .str "-"), ("Cabin Cleaning", .num 13),
      ("Galley Service", .num 18), ("Cabin Security", .str "-"),
      ("Passenger Enplaning", .num 7), ("FNLZTN / Door CLSD", .num 3),
      ("BLOCKS OUT", .num 1), ("Total Ground Time", .num 30)]),
    ("INTL-DOM", [("Blocks IN / Door Opening", .num 1), ("PAX deplaning", .num 4),
      ("Custom Clearance", .str "-"), ("Cabin Cleaning", .num 16),
      ("Galley Service", .num 16), ("Cabin Security", .str "-"),
      ("Passenger Enplaning", .str "-"), ("FNLZTN / Door CLSD", .num 3),
      ("BLOCKS OUT", .num 1), ("Total Ground Time", .num 25)]),
    ("INTL-INTL", [("Blocks IN / Door Opening", .str "-"), ("PAX deplaning", .str "-"),
      ("Custom Clearance", .str "-"), ("Cabin Cleaning", .str "-"),
      ("Galley Service", .str "-"), ("Cabin Security", .str "-"),
      ("Passenger Enplaning", .str "-"), ("FNLZTN / Door CLSD", .str "-"),
      ("BLOCKS OUT", .str "-"), ("Total Ground Time", .str "-")])] }

/-- `B757_TURNAROUND` (lines 598-652): note its total field is named
`"Min Ground Time"`. -/
def B757_TURNAROUND : BreakdownTable := {
  operation := "TURNAROUND",
  assumptions := ["100% Load Factor"],
  notes := [],
  movements := [
    ("DOM-DOM", [("Dock Jetty/ open Door", .num 1), ("PAX Disembarkation", .num 7),
      ("ACFT Customs checks", .str "-"), ("ACFT Cleaning", .star (_sv 12 8 "*")),
      ("Catering Services", .num 15), ("Cabin security", .num 3),
      ("PAX Embarkation", .num 15), ("FNLZTN / Door CLSD", .num 3),
      ("Pushback", .num 1), ("Min Ground Time", .num 45)]),
    ("DOM-INTL", [("Dock Jetty/ open Door", .num 1), ("PAX Disembarkation", .num 7),
      ("ACFT Customs checks", .str "-"), ("ACFT Cleaning", .star (_sv 12 8 "*")),
      ("Catering Services", .num 15), ("Cabin security", .num 3),
      ("PAX Embarkation", .num 15), ("FNLZTN / Door CLSD", .num 3),
      ("Pushback", .num 1), ("Min Ground Time", .num 45)]),
    ("INTL-DOM", [("Dock Jetty/ open Door", .num 1), ("PAX Disembarkation", .num 7),
      ("ACFT Customs checks", .num 5), ("ACFT Cleaning", .star (_sv 12 8 "*")),
      ("Catering Services", .num 20), ("Cabin security", .num 3),
      ("PAX Embarkation", .num 15), ("FNLZTN / Door CLSD", .num 3),
      ("Pushback", .num 1), ("Min Ground Time", .num 55)]),
    ("INTL-INTL", [("Dock Jetty/ open Door", .num 1), ("PAX Disembarkation", .num 7),
      ("ACFT Customs checks", .num 5), ("ACFT Cleaning", .star (_sv 12 8 "*")),
      ("Catering Services", .num 25), ("Cabin security", .num 3),
      ("PAX Embarkation", .num 15), ("FNLZTN / Door CLSD", .num 3),
      ("Pushback", .num 1), ("Min Ground Time", .num 60)])] }

/-- `B757_TRANSIT` (lines 655-709). -/
def B757_TRANSIT : BreakdownTable := {
  operation := "TRANSIT",
  assumptions := ["50% Load Factor"],
  notes := [],
  movements := [
    ("DOM-DOM", [("Dock Jetty/ open Door", .num 1), ("PAX Disembarkation", .num 7),
      ("ACFT Customs checks", .str "-"), ("ACFT Cleaning", .star (_sv 5 5 "*")),
      ("Catering Services", .num 12), ("Cabin security", .str "-"),
      ("PAX Embarkation", .num 15), ("FNLZTN / Door CLSD", .num 3),
      ("Pushback", .num 1), ("Min Ground Time", .num 39)]),
    ("DOM-INTL", [("Dock Jetty/ open Door", .num 1), ("PAX Disembarkation", .str "-"),
      ("ACFT Customs checks", .str "-"), ("ACFT Cleaning", .star (_sv 5 5 "*")),
      ("Catering Services", .num 12), ("Cabin security", .str "-"),
      ("PAX Embarkation", .num 15), ("FNLZTN / Door CLSD", .num 3),
      ("Pushback", .num 1), ("Min Ground Time", .num 32)]),
    ("INTL-DOM", [("Dock Jetty/ open Door", .num 1), ("PAX Disembarkation", .num 7),
      ("ACFT Customs checks", .str "-"), ("ACFT Cleaning", .star (_sv 5 5 "*")),
      ("Catering Services", .num 15), ("Cabin security", .str "-"),
      ("PAX Embarkation", .str "-"), ("FNLZTN / Door CLSD", .num 3),
      ("Pushback", .num 1), ("Min Ground Time", .num 27)]),
    ("INTL-INTL", [("Dock Jetty/ open Door", .str "-"), ("PAX Disembarkation", .str "-"),
      ("ACFT Customs checks", .str "-"), ("ACFT Cleaning", .str "-"),
      ("Catering Services", .str "-"), ("Cabin security", .str "-"),
      ("PAX Embarkation", .str "-"), ("FNLZTN / Door CLSD", .str "-"),
      ("Pushback", .str "-"), ("Min Ground Time", .str "-")])] }

/-- `COMBINED_MIXED_FLIGHTS` (lines 712-749): the single `"N/A"` movement
maps aircraft columns to nested all-float dictionaries (`AVal.obj`) or the
literal `"N/A"`. -/
def COMBINED_MIXED_FLIGHTS : BreakdownTable := {
  operation := "COMBINED_MIXED",
  assumptions := ["100% Load Factor"],
  notes := [],
  movements := [
    ("N/A", [
      ("B777-368/B787-10", .obj [("Dock Jetty/ Open Door", 1),
        ("PAX Disembarkation", 13), ("ACFT Customs Checks", 7),
        ("ACFT Cleaning", 30), ("Catering Services", 30), ("Cabin security", 5),
        ("PAX Embarkation", 25), ("FNLZTN / Door CLSD", 3), ("Pushback", 1),
        ("Min Ground Time", 85)]),
      ("B777-268/A330", .obj [("Dock Jetty/ Open Door", 1),
        ("PAX Disembarkation", 10), ("ACFT Customs Checks", 7),
        ("ACFT Cleaning", 28), ("Catering Services", 28), ("Cabin security", 5),
        ("PAX Embarkation", 20), ("FNLZTN / Door CLSD", 3), ("Pushback", 1),
        ("Min Ground Time", 75)]),
      ("A321/A320", .str "N/A")])] }

/-- `ACTIVITY_BREAKDOWNS` (lines 751-760). -/
def ACTIVITY_BREAKDOWNS : List (String × BreakdownTable) := [
  ("B777-368/B787-10_TURNAROUND", B777_TURNAROUND),
  ("B777-368/B787-10_TRANSIT", B777_TRANSIT),
  ("A330/B787-9_TRANSIT", A330_TRANSIT),
  ("A321/A320_TURNAROUND", A321_TURNAROUND),
  ("A321/A320_TRANSIT", A321_TRANSIT),
  ("B757_TURNAROUND", B757_TURNAROUND),
  ("B757_TRANSIT", B757_TRANSIT),
  ("COMBINED_MIXED", COMBINED_MIXED_FLIGHTS)]

/-- `lookup_activity_breakdown` (lines 762-799). -/
def lookup_activity_breakdown (aircraft_group operation movement : String) :
    Except PyErr ActivityBreakdownResult :=
  let op := pyUpper (pyStrip operation)
  let movementN := pyUpper (pyStrip movement)
  let key := aircraft_group ++ "_" ++ op
  match dget ACTIVITY_BREAKDOWNS key with
  | none => .error (.keyError ("No activity breakdown found for " ++
      aircraft_group ++ " / " ++ op))
  | some blob =>
    match dget blob.movements movementN with
    | none => .error (.keyError ("No movement \x27" ++ movementN ++ "\x27 for " ++
        aircraft_group ++ " / " ++ op))
    | some row =>
      let total_val :=
        (["Total Ground Time", "Min Ground Time"].findSome?
          (fun tf => dget row tf)).getD (AVal.str "-")
      .ok {
        aircraft_group := aircraft_group,
        operation := op,
        movement := movementN,
        activities := row,
        total_or_min_ground_time := total_val,
        assumptions := blob.assumptions,
        notes := blob.notes }

def AIRCRAFT_DELIVERY_BEFORE_STD_HOURS : List (String × Rat) := [
  ("B777-368/B787-10", 2),
  ("A300/B787-9", 2),
  ("A321/A320", 1)]

/-- `lookup_delivery_before_std_hours` (lines 811-821). -/
def lookup_delivery_before_std_hours (aircraft_group : String) : Except PyErr Rat :=
  let key := pyStrip aircraft_group
  match dget AIRCRAFT_DELIVERY_BEFORE_STD_HOURS key with
  | some v => .ok v
  | none =>
    if key = "A330/B787-9" then
      match dget AIRCRAFT_DELIVERY_BEFORE_STD_HOURS "A300/B787-9" with
      | some v => .ok v
      | none => .error (.keyError "A300/B787-9")
    else
      .error (.keyError ("No delivery time found for aircraft_group \x27" ++
        aircraft_group ++ "\x27"))

/-- A regex word character (`\w`), ASCII model: letter, digit or underscore. -/
def isWordChar (c : Char) : Bool :=
  c.isAlphanum || c = '_'

/-- Substring search: `re.search` of a literal pattern (no anchors). -/
def strContains (l : List Char) (pat : List Char) : Bool :=
  match l with
  | [] => pat.isEmpty
  | c :: t => pat.isPrefixOf (c :: t) || strContains t pat

/-- `\b` holds before the match: start of string or a non-word character. -/
def boundaryBefore (prev : Option Char) : Bool :=
  match prev with
  | none => true
  | some c => !isWordChar c

/-- `\b` holds after the match: end of string or a non-word character. -/
def boundaryAfter (rest : List Char) : Bool :=
  match rest with
  | [] => true
  | c :: _ => !isWordChar c

/-- Search for a word-bounded literal: `re.search(r"\bPAT\b", ...)` for a
pattern starting and ending with word characters. -/
def searchBounded (prev : Option Char) (l : List Char) (pat : List Char) : Bool :=
  (pat.isPrefixOf l && boundaryBefore prev && boundaryAfter (l.drop pat.length)) ||
    match l with
    | [] => false
    | c :: t => searchBounded (some c) t pat

/-- Search for `PRE\s*POST` where `POST` starts with a non-whitespace
character: after `PRE`, skip the whitespace run, then require `POST`. -/
def searchWsSeq (l : List Char) (pre post : List Char) : Bool :=
  (pre.isPrefixOf l && post.isPrefixOf ((l.drop pre.length).dropWhile isPyWs)) ||
    match l with
    | [] => false
    | _ :: t => searchWsSeq t pre post

/-- `re.compile(r"\bB777\b|777|B787-10|787-10|B787\s*10", re.I)` applied by
`re.search`: case-insensitivity is modelled by uppercasing the message
(the pattern letters are already uppercase). -/
def _aircraft_rx1 (message : String) : Bool :=
  let u := (pyUpper message).data
  searchBounded none u "B777".data || strContains u "777".data ||
    strContains u "B787-10".data || strContains u "787-10".data ||
    searchWsSeq u "B787".data "10".data

/-- `re.compile(r"A330|B787-9|787-9|B787\s*9", re.I)` applied by `re.search`. -/
def _aircraft_rx2 (message : String) : Bool :=
  let u := (pyUpper message).data
  strContains u "A330".data || strContains u "B787-9".data ||
    strContains u "787-9".data || searchWsSeq u "B787".data "9".data

/-- `re.compile(r"A321|A320", re.I)` applied by `re.search`. -/
def _aircraft_rx3 (message : String) : Bool :=
  let u := (pyUpper message).data
  strContains u "A321".data || strContains u "A320".data

/-- `re.compile(r"B757|757", re.I)` applied by `re.search`. -/
def _aircraft_rx4 (message : String) : Bool :=
  let u := (pyUpper message).data
  strContains u "B757".data || strContains u "757".data

/-- `_AIRCRAFT_ALIASES` (lines 1368-1373): compiled patterns paired with
their canonical aircraft-group keys, in source order. -/
def _AIRCRAFT_ALIASES : List ((String → Bool) × String) := [
  (_aircraft_rx1, "B777-368/B787-10"),
  (_aircraft_rx2, "A330/B787-9"),
  (_aircraft_rx3, "A321/A320"),
  (_aircraft_rx4, "B757")]

/-- `_extract_aircraft_group` (lines 1416-1420): return the group of the
first alias whose pattern matches, else `None`. -/
def _extract_aircraft_group (message : String) : Option String :=
  _AIRCRAFT_ALIASES.findSome?
    (fun rxg => if rxg.1 message then some rxg.2 else none)

instance {ε α : Type} [DecidableEq ε] [DecidableEq α] : DecidableEq (Except ε α) :=
  fun a b =>
    match a, b with
    | .ok x, .ok y => if h : x = y then isTrue (by rw [h]) else isFalse (by simp [h])
    | .error x, .error y => if h : x = y then isTrue (by rw [h]) else isFalse (by simp [h])
    | .ok _, .error _ => isFalse (by simp)
    | .error _, .ok _ => isFalse (by simp)

/-- The normalized destination value computed on line 201 of the source. -/
def destNorm (destination_station : Option String) : Option String :=
  match destination_station with
  | none => none
  | some d => if d = "" then none else some (pyUpper (pyStrip d))

/-- Discriminator for the three MGT lookup error kinds: the character at
index 8 of the message (`'a'` for aircraft group, `'m'` for movement,
`'s'` for station). -/
def errDim (msg : String) : Option Char := msg.data.get? 8

-- ===========================================================================
-- Theorems
-- ===========================================================================

theorem dget_mem {α : Type} {d : List (String × α)} {k : String} {v : α}
    (h : dget d k = some v) : (k, v) ∈ d := by
  unfold dget at h
  cases hf : d.find? (fun p => p.1 == k) with
  | none => rw [hf] at h; simp at h
  | some p =>
    rw [hf] at h
    simp at h
    have hm := List.mem_of_find?_eq_some hf
    have hp := List.find?_some hf
    simp at hp
    have hpk : p = (k, v) := by
      obtain ⟨p1, p2⟩ := p
      simp at hp h
      exact Prod.ext hp h
    rwa [hpk] at hm

theorem toNat_ofNat_valid {n : Nat} (h : n < 55296) : (Char.ofNat n).toNat = n := by
  have hv : n.isValidChar := Or.inl h
  unfold Char.ofNat
  rw [dif_pos hv]
  simp [Char.ofNatAux, Char.toNat, UInt32.toNat]

theorem char_eq_iff_toNat (a b : Char) : a = b ↔ a.toNat = b.toNat := by
  constructor
  · intro h; rw [h]
  · intro h
    apply Char.ext
    apply UInt32.ext
    exact h

/-- `upper` after `lower` is `upper`, character by character. -/
theorem pyUpperChar_pyLowerChar (c : Char) :
    pyUpperChar (pyLowerChar c) = pyUpperChar c := by
  unfold pyLowerChar pyUpperChar
  by_cases h : 65 ≤ c.toNat ∧ c.toNat ≤ 90
  · rw [if_pos h]
    have ht : (Char.ofNat (c.toNat + 32)).toNat = c.toNat + 32 :=
      toNat_ofNat_valid (by omega)
    rw [if_pos (by omega : 97 ≤ (Char.ofNat (c.toNat + 32)).toNat ∧ (Char.ofNat (c.toNat + 32)).toNat ≤ 122)]
    rw [if_neg (by omega : ¬(97 ≤ c.toNat ∧ c.toNat ≤ 122))]
    rw [ht]
    have : c.toNat + 32 - 32 = c.toNat := by omega
    rw [this, Char.ofNat_toNat]
  · rw [if_neg h]

/-- A character with code point at least 33 is not Python whitespace. -/
theorem isPyWs_false_of (d : Char) (h : 33 ≤ d.toNat) : isPyWs d = false := by
  unfold isPyWs
  simp only [Bool.or_eq_false_iff, decide_eq_false_iff_not]
  omega

/-- Lowercasing does not create or destroy whitespace. -/
theorem isPyWs_pyLowerChar (c : Char) : isPyWs (pyLowerChar c) = isPyWs c := by
  unfold pyLowerChar
  by_cases h : 65 ≤ c.toNat ∧ c.toNat ≤ 90
  · rw [if_pos h]
    have ht : (Char.ofNat (c.toNat + 32)).toNat = c.toNat + 32 :=
      toNat_ofNat_valid (by omega)
    rw [isPyWs_false_of _ (by omega), isPyWs_false_of _ (by omega)]
  · rw [if_neg h]

theorem pyStripL_map_pyLowerChar (l : List Char) :
    pyStripL (l.map pyLowerChar) = (pyStripL l).map pyLowerChar := by
  unfold pyStripL
  have hf : (isPyWs ∘ pyLowerChar) = isPyWs := funext isPyWs_pyLowerChar
  rw [List.dropWhile_map, hf, ← List.map_reverse, List.dropWhile_map, hf,
    ← List.map_reverse]

/-- `strip` commutes with `lower`. -/
theorem pyStrip_pyLower (s : String) : pyStrip (pyLower s) = pyLower (pyStrip s) := by
  unfold pyStrip pyLower
  simp only [pyStripL_map_pyLowerChar]

/-- `upper` after `lower` equals `upper`. -/
theorem pyUpper_pyLower (s : String) : pyUpper (pyLower s) = pyUpper s := by
  unfold pyUpper pyLower
  simp only [List.map_map]
  congr 1
  exact List.map_congr_left (fun c _ => pyUpperChar_pyLowerChar c)

/-- Lowercasing an argument first does not change `strip().upper()`
normalization. -/
theorem pyNorm_pyLower (s : String) :
    pyUpper (pyStrip (pyLower s)) = pyUpper (pyStrip s) := by
  rw [pyStrip_pyLower, pyUpper_pyLower]

theorem pyDigitChar_toNat {n : Nat} (h : n < 10) : (pyDigitChar n).toNat = 48 + n :=
  toNat_ofNat_valid (by omega)

theorem natToCharsAux_digits (fuel : Nat) : ∀ n, n < fuel →
    ∀ c ∈ natToCharsAux fuel n, 48 ≤ c.toNat ∧ c.toNat ≤ 57 := by
  induction fuel with
  | zero => intro n hn; omega
  | succ fuel ih =>
    intro n _hn
    unfold natToCharsAux
    by_cases h : n < 10
    · rw [if_pos h]
      intro c hc
      simp at hc
      subst hc
      rw [pyDigitChar_toNat h]
      omega
    · rw [if_neg h]
      intro c hc
      rw [List.mem_append] at hc
      rcases hc with hc | hc
      · exact ih (n / 10) (by omega) c hc
      · simp at hc
        subst hc
        rw [pyDigitChar_toNat (Nat.mod_lt _ (by omega))]
        omega

theorem natToChars_digits (n : Nat) :
    ∀ c ∈ natToChars n, 48 ≤ c.toNat ∧ c.toNat ≤ 57 :=
  natToCharsAux_digits (n + 1) n (Nat.lt_succ_self n)

theorem natToCharsAux_ne_nil (fuel n : Nat) (hn : n < fuel) :
    natToCharsAux fuel n ≠ [] := by
  cases fuel with
  | zero => omega
  | succ fuel =>
    unfold natToCharsAux
    by_cases h : n < 10
    · rw [if_pos h]; simp
    · rw [if_neg h]; simp

theorem natToChars_ne_nil (n : Nat) : natToChars n ≠ [] :=
  natToCharsAux_ne_nil (n + 1) n (Nat.lt_succ_self n)

theorem charToDigit_pyDigitChar {n : Nat} (h : n < 10) :
    charToDigit (pyDigitChar n) = some n := by
  unfold charToDigit
  rw [if_pos (by rw [pyDigitChar_toNat h]; omega)]
  rw [pyDigitChar_toNat h]
  congr 1
  omega

theorem parseNatAux_append (acc : Nat) (l1 l2 : List Char) :
    parseNatAux acc (l1 ++ l2) =
      match parseNatAux acc l1 with
      | some a => parseNatAux a l2
      | none => none := by
  induction l1 generalizing acc with
  | nil => simp [parseNatAux]
  | cons c t ihc =>
    simp only [List.cons_append, parseNatAux]
    cases charToDigit c with
    | none => simp
    | some d => simp only []; exact ihc _

theorem parseNatAux_natToCharsAux (fuel : Nat) : ∀ n, n < fuel → ∀ acc : Nat,
    parseNatAux acc (natToCharsAux fuel n) =
      some (acc * 10 ^ (natToCharsAux fuel n).length + n) := by
  induction fuel with
  | zero => intro n hn; omega
  | succ fuel ih =>
    intro n _hn acc
    unfold natToCharsAux
    by_cases h : n < 10
    · rw [if_pos h]
      simp [parseNatAux, charToDigit_pyDigitChar h, pow_one]
    · rw [if_neg h]
      rw [parseNatAux_append]
      rw [ih (n / 10) (by omega) acc]
      simp only [parseNatAux, charToDigit_pyDigitChar (Nat.mod_lt _ (by omega : 0 < 10)),
        List.length_append, List.length_singleton]
      congr 1
      have hmod := Nat.div_add_mod n 10
      ring_nf
      omega

theorem parseNat_natToChars (n : Nat) : parseNat (natToChars n) = some n := by
  cases hl : natToChars n with
  | nil => exact absurd hl (natToChars_ne_nil n)
  | cons a t =>
    unfold parseNat
    rw [← hl, hl]
    simp only []
    rw [← hl]
    unfold natToChars
    rw [parseNatAux_natToCharsAux (n + 1) n (Nat.lt_succ_self n)]
    simp

theorem pad2_digits (n : Nat) : ∀ c ∈ pad2 n, 48 ≤ c.toNat ∧ c.toNat ≤ 57 := by
  unfold pad2
  by_cases h : n < 10
  · rw [if_pos h]
    intro c hc
    rcases List.mem_cons.mp hc with hc | hc
    · subst hc; exact ⟨by decide, by decide⟩
    · exact natToChars_digits n c hc
  · rw [if_neg h]
    exact natToChars_digits n

theorem parseNat_pad2 (n : Nat) : parseNat (pad2 n) = some n := by
  unfold pad2
  by_cases h : n < 10
  · rw [if_pos h]
    unfold parseNat
    simp only [parseNatAux]
    have h0 : charToDigit '0' = some 0 := by decide
    rw [h0]
    simp only []
    cases hl : natToChars n with
    | nil => exact absurd hl (natToChars_ne_nil n)
    | cons a t =>
      rw [← hl]
      unfold natToChars
      rw [parseNatAux_natToCharsAux (n + 1) n (Nat.lt_succ_self n)]
      simp
  · rw [if_neg h]
    exact parseNat_natToChars n

theorem splitOnColon_cons (c : Char) (t : List Char) :
    splitOnColon (c :: t) =
      if c = ':' then [] :: splitOnColon t
      else
        match splitOnColon t with
        | [] => [[c]]
        | h :: r => (c :: h) :: r := rfl

theorem splitOnColon_no_colon (b : List Char) (hb : ∀ c ∈ b, c ≠ ':') :
    splitOnColon b = [b] := by
  induction b with
  | nil => rfl
  | cons c t iht =>
    rw [splitOnColon_cons, if_neg (hb c (List.mem_cons_self c t))]
    rw [iht (fun d hd => hb d (List.mem_cons_of_mem c hd))]

theorem splitOnColon_append (a b : List Char) (ha : ∀ c ∈ a, c ≠ ':') :
    splitOnColon (a ++ ':' :: b) = a :: splitOnColon b := by
  induction a with
  | nil =>
    simp only [List.nil_append]
    rw [splitOnColon_cons, if_pos rfl]
  | cons c t iht =>
    simp only [List.cons_append]
    rw [splitOnColon_cons, if_neg (ha c (List.mem_cons_self c t))]
    rw [iht (fun d hd => ha d (List.mem_cons_of_mem c hd))]

theorem dropWhile_eq_self_of_false {p : Char → Bool} {l : List Char}
    (h : ∀ c ∈ l, p c = false) : l.dropWhile p = l := by
  cases l with
  | nil => rfl
  | cons c t =>
    rw [List.dropWhile_cons, h c (List.mem_cons_self c t)]
    simp

theorem pyStripL_id (l : List Char) (h : ∀ c ∈ l, isPyWs c = false) :
    pyStripL l = l := by
  unfold pyStripL
  rw [dropWhile_eq_self_of_false h,
    dropWhile_eq_self_of_false (fun c hc => h c (List.mem_reverse.mp hc)),
    List.reverse_reverse]

theorem pad2_not_colon (n : Nat) : ∀ c ∈ pad2 n, c ≠ ':' := by
  intro c hc he
  have hd := pad2_digits n c hc
  have : c.toNat = 58 := by rw [he]; rfl
  omega

theorem pad2_not_ws (n : Nat) : ∀ c ∈ pad2 n, isPyWs c = false := by
  intro c hc
  have hd := pad2_digits n c hc
  exact isPyWs_false_of c (by omega)

/-- Round trip: formatting a nonnegative minute count and parsing it back
returns the same count. -/
theorem to_minutes_from_hhmm_roundtrip (n : Nat) :
    _to_minutes_from_hhmm (_to_hhmm_from_minutes (n : Int)) = some n := by
  unfold _to_hhmm_from_minutes
  have hneg : ¬((n : Int) < 0) := by omega
  rw [if_neg hneg]
  have htn : (n : Int).toNat = n := Int.toNat_ofNat n
  rw [htn]
  unfold _to_minutes_from_hhmm
  have hdata : (⟨pad2 (n / 60) ++ ':' :: pad2 (n % 60)⟩ : String).data =
      pad2 (n / 60) ++ ':' :: pad2 (n % 60) := rfl
  rw [hdata]
  have hnows : ∀ c ∈ pad2 (n / 60) ++ ':' :: pad2 (n % 60), isPyWs c = false := by
    intro c hc
    rcases List.mem_append.mp hc with hc | hc
    · exact pad2_not_ws _ c hc
    · rcases List.mem_cons.mp hc with hc | hc
      · subst hc; rfl
      · exact pad2_not_ws _ c hc
  rw [pyStripL_id _ hnows]
  rw [splitOnColon_append _ _ (pad2_not_colon _)]
  rw [splitOnColon_no_colon _ (pad2_not_colon _)]
  simp only [parseNat_pad2]
  congr 1
  omega

/-- Inversion of a successful `lookup_mgt` call: the chain of table hits
and the shape of the returned record. -/
theorem lookup_mgt_ok_inv {operation aircraft_group movement station : String}
    {destination_station : Option String} {sa tw : Bool} {r : MGTLookupResult}
    (h : lookup_mgt operation aircraft_group movement station destination_station sa tw = .ok r) :
    ∃ groupTable row cell m0 acc2,
      (pyUpper (pyStrip operation) = "TURNAROUND" ∨ pyUpper (pyStrip operation) = "TRANSIT") ∧
      dget (if pyUpper (pyStrip operation) = "TURNAROUND" then TURNAROUND_MGT else TRANSIT_MGT)
        aircraft_group = some groupTable ∧
      dget groupTable (pyUpper (pyStrip movement)) = some row ∧
      dget row (pyUpper (pyStrip station)) = some cell ∧
      _to_minutes_from_hhmm (_pick_mgt_cell cell sa) = some m0 ∧
      (if pyUpper (pyStrip operation) = "TURNAROUND" then
          destinationSection (destNorm destination_station) row sa
            (applyTowing tw (pyUpper (pyStrip movement)) (pyUpper (pyStrip station)) (m0, []))
        else
          .ok (applyTowing tw (pyUpper (pyStrip movement)) (pyUpper (pyStrip station)) (m0, []))) =
        .ok acc2 ∧
      r = {
        operation := pyUpper (pyStrip operation),
        aircraft_group := aircraft_group,
        movement := pyUpper (pyStrip movement),
        station_key := pyUpper (pyStrip station),
        base_mgt := _pick_mgt_cell cell sa,
        adjusted_mgt := _to_hhmm_from_minutes (acc2.1 : Int),
        applied_rules := acc2.2 ++
          ["Note: Mixed flights MGT uses SV aircraft type (see MIXED_FLIGHTS_MGT)"] } := by
  unfold lookup_mgt at h
  simp only [] at h
  split at h
  · exact absurd h (by simp)
  · rename_i hval
    rw [not_not] at hval
    split at h
    · exact absurd h (by simp)
    · rename_i groupTable hgt
      split at h
      · exact absurd h (by simp)
      · rename_i row hrow
        split at h
        · exact absurd h (by simp)
        · rename_i cell hcell
          split at h
          · exact absurd h (by simp)
          · rename_i m0 hm0
            split at h
            · exact absurd h (by simp)
            · rename_i acc2 hacc2
              refine ⟨groupTable, row, cell, m0, acc2, hval, hgt, hrow, hcell, hm0, ?_, ?_⟩
              · exact hacc2
              · have hr := h
                simp only [Except.ok.injEq] at hr
                rw [← hr]
                rw [if_pos hval]

theorem applyTowing_fst_le (tw : Bool) (mv st : String) (acc : Nat × List String) :
    acc.1 ≤ (applyTowing tw mv st acc).1 := by
  unfold applyTowing
  split
  · simp [LOCAL_TOWING_ADD_MINUTES]
  · exact le_refl _

theorem applyDestFloors_fst_le (d : String) (acc : Nat × List String) :
    acc.1 ≤ (applyDestFloors d acc).1 := by
  unfold applyDestFloors
  unfold TURNAROUND_MIN_TO_USA_MINUTES TURNAROUND_MIN_TO_ALL_USA_STATIONS_MINUTES
    TURNAROUND_MIN_TO_KAN_MINUTES TURNAROUND_MIN_TO_SSH_MINUTES
  repeat' split
  all_goals simp_all
  all_goals omega

theorem applyLongHaul_fst_le {d : String} {row : List (String × MGTCell)}
    {sa : Bool} {acc acc2 : Nat × List String}
    (h : applyLongHaul d row sa acc = .ok acc2) : acc.1 ≤ acc2.1 := by
  unfold applyLongHaul at h
  split at h
  · split at h
    · split at h
      · split at h
        · simp at h
          rw [← h]
          rename_i hlt
          simp
          omega
        · simp at h
          rw [← h]
      · simp at h
    · simp at h
      rw [← h]
  · simp at h
    rw [← h]

theorem destinationSection_fst_le {dest : Option String}
    {row : List (String × MGTCell)} {sa : Bool} {acc acc2 : Nat × List String}
    (h : destinationSection dest row sa acc = .ok acc2) : acc.1 ≤ acc2.1 := by
  unfold destinationSection at h
  match dest with
  | none => simp at h; rw [← h]
  | some d =>
    simp only [] at h
    split at h
    · simp at h; rw [← h]
    · exact le_trans (applyDestFloors_fst_le d acc) (applyLongHaul_fst_le h)

/-- Every cell of both MGT tables parses as an `"HH:MM"` literal under
either security-alert flag. -/
theorem mgt_cells_parse : ∀ tbl ∈ [TURNAROUND_MGT, TRANSIT_MGT], ∀ p1 ∈ tbl,
    ∀ p2 ∈ p1.2, ∀ p3 ∈ p2.2, ∀ b : Bool,
    (_to_minutes_from_hhmm (_pick_mgt_cell p3.2 b)).isSome = true := by decide

theorem destinationSection_total {row : List (String × MGTCell)}
    (hrow : ∀ p ∈ row, ∀ b : Bool,
      (_to_minutes_from_hhmm (_pick_mgt_cell p.2 b)).isSome = true)
    (dest : Option String) (sa : Bool) (acc : Nat × List String) :
    ∃ acc2, destinationSection dest row sa acc = .ok acc2 := by
  unfold destinationSection
  match dest with
  | none => exact ⟨acc, rfl⟩
  | some d =>
    simp only []
    split
    · exact ⟨acc, rfl⟩
    · unfold applyLongHaul
      split
      · cases hlh : dget row "LONG_HAUL_STN" with
        | none => exact ⟨_, rfl⟩
        | some lh_cell =>
          have hmem := dget_mem hlh
          have hparse := hrow _ hmem sa
          cases hp : _to_minutes_from_hhmm (_pick_mgt_cell lh_cell sa) with
          | none => rw [hp] at hparse; simp at hparse
          | some lh_minutes =>
            simp only []
            rw [hp]
            simp only []
            split
            · exact ⟨_, rfl⟩
            · exact ⟨_, rfl⟩
      · exact ⟨_, rfl⟩

/-- The trace entries the destination-floor chain can append. -/
theorem applyDestFloors_snd (d : String) (a : Nat × List String) :
    ∃ ex1, (applyDestFloors d a).2 = a.2 ++ ex1 ∧ ∀ e ∈ ex1, e ∈ [
      "Turnaround destination minimum: USA => 02:50",
      "Turnaround destination minimum: USA stations (JFK/LAX/IAD/YYZ) => 02:00",
      "Turnaround destination minimum: KAN => 02:00",
      "Turnaround destination minimum: SSH => 01:15 (Security/Baggage Identification)"] := by
  unfold applyDestFloors
  split
  · split
    · exact ⟨["Turnaround destination minimum: USA => 02:50"], by simp, by simp⟩
    · exact ⟨[], by simp, by simp⟩
  · split
    · split
      · exact ⟨["Turnaround destination minimum: USA stations (JFK/LAX/IAD/YYZ) => 02:00"],
          by simp, by simp⟩
      · exact ⟨[], by simp, by simp⟩
    · split
      · split
        · exact ⟨["Turnaround destination minimum: KAN => 02:00"], by simp, by simp⟩
        · exact ⟨[], by simp, by simp⟩
      · split
        · split
          · exact ⟨["Turnaround destination minimum: SSH => 01:15 (Security/Baggage Identification)"],
              by simp, by simp⟩
          · exact ⟨[], by simp, by simp⟩
        · exact ⟨[], by simp, by simp⟩

/-- The entries a successful destination section can append to the trace. -/
theorem destinationSection_snd {dest : Option String}
    {row : List (String × MGTCell)} {sa : Bool} {acc acc2 : Nat × List String}
    (h : destinationSection dest row sa acc = .ok acc2) :
    ∃ extra, acc2.2 = acc.2 ++ extra ∧ ∀ e ∈ extra, e ∈ [
      "Turnaround destination minimum: USA => 02:50",
      "Turnaround destination minimum: USA stations (JFK/LAX/IAD/YYZ) => 02:00",
      "Turnaround destination minimum: KAN => 02:00",
      "Turnaround destination minimum: SSH => 01:15 (Security/Baggage Identification)",
      "Long-haul station category applied (LONG_HAUL_STN)"] := by
  unfold destinationSection at h
  match dest with
  | none =>
    simp at h
    exact ⟨[], by rw [← h]; simp, by simp⟩
  | some d =>
    simp only [] at h
    split at h
    · simp at h
      exact ⟨[], by rw [← h]; simp, by simp⟩
    · obtain ⟨ex1, hex1, hex1m⟩ := applyDestFloors_snd d acc
      unfold applyLongHaul at h
      split at h
      · split at h
        · split at h
          · split at h
            · simp at h
              refine ⟨ex1 ++ ["Long-haul station category applied (LONG_HAUL_STN)"], ?_, ?_⟩
              · rw [← h]
                simp only [hex1, List.append_assoc]
              · intro e he
                rcases List.mem_append.mp he with he | he
                · have hm := hex1m e he
                  simp at hm ⊢
                  tauto
                · simp at he
                  simp [he]
            · simp at h
              rw [← h]
              refine ⟨ex1, hex1, ?_⟩
              intro e he
              have hm := hex1m e he
              simp at hm ⊢
              tauto
          · simp at h
        · simp at h
          rw [← h]
          refine ⟨ex1, hex1, ?_⟩
          intro e he
          have hm := hex1m e he
          simp at hm ⊢
          tauto
      · simp at h
        rw [← h]
        refine ⟨ex1, hex1, ?_⟩
        intro e he
        have hm := hex1m e he
        simp at hm ⊢
        tauto

theorem errDim_group (g : String) :
    errDim ("Unknown aircraft_group: " ++ g) = some 'a' := by
  simp [errDim, List.get?]

theorem errDim_movement (mv g : String) :
    errDim ("Unknown movement \x27" ++ mv ++ "\x27 for aircraft_group \x27" ++
      g ++ "\x27") = some 'm' := by
  simp [errDim, List.get?]

theorem errDim_station (st op g mv : String) :
    errDim ("Unknown station \x27" ++ st ++ "\x27 for op=" ++ op ++
      ", aircraft_group=" ++ g ++ ", movement=" ++ mv) = some 's' := by
  simp [errDim, List.get?]

/-- Inversion of a failing `lookup_mgt` call under a valid operation: the
failure is a `KeyError` at exactly the first unresolved dimension. -/
theorem lookup_mgt_error_inv {operation aircraft_group movement station : String}
    {destination_station : Option String} {sa tw : Bool} {e : PyErr}
    (hval : pyUpper (pyStrip operation) = "TURNAROUND" ∨
      pyUpper (pyStrip operation) = "TRANSIT")
    (h : lookup_mgt operation aircraft_group movement station destination_station sa tw = .error e) :
    (dget (if pyUpper (pyStrip operation) = "TURNAROUND" then TURNAROUND_MGT else TRANSIT_MGT)
        aircraft_group = none ∧
      e = .keyError ("Unknown aircraft_group: " ++ aircraft_group)) ∨
    (∃ groupTable,
      dget (if pyUpper (pyStrip operation) = "TURNAROUND" then TURNAROUND_MGT else TRANSIT_MGT)
        aircraft_group = some groupTable ∧
      dget groupTable (pyUpper (pyStrip movement)) = none ∧
      e = .keyError ("Unknown movement \x27" ++ pyUpper (pyStrip movement) ++
        "\x27 for aircraft_group \x27" ++ aircraft_group ++ "\x27")) ∨
    (∃ groupTable row,
      dget (if pyUpper (pyStrip operation) = "TURNAROUND" then TURNAROUND_MGT else TRANSIT_MGT)
        aircraft_group = some groupTable ∧
      dget groupTable (pyUpper (pyStrip movement)) = some row ∧
      dget row (pyUpper (pyStrip station)) = none ∧
      e = .keyError ("Unknown station \x27" ++ pyUpper (pyStrip station) ++
        "\x27 for op=" ++ pyUpper (pyStrip operation) ++ ", aircraft_group=" ++
        aircraft_group ++ ", movement=" ++ pyUpper (pyStrip movement))) := by
  have htbl : (if pyUpper (pyStrip operation) = "TURNAROUND" then TURNAROUND_MGT
      else TRANSIT_MGT) ∈ [TURNAROUND_MGT, TRANSIT_MGT] := by
    split <;> simp
  unfold lookup_mgt at h
  simp only [] at h
  split at h
  · rename_i hcond
    exact absurd hval hcond
  · split at h
    · rename_i hgt
      left
      simp at h
      exact ⟨hgt, h.symm⟩
    · rename_i groupTable hgt
      split at h
      · rename_i hrow
        right; left
        simp at h
        exact ⟨groupTable, hgt, hrow, h.symm⟩
      · rename_i row hrow
        split at h
        · rename_i hcell
          right; right
          simp at h
          exact ⟨groupTable, row, hgt, hrow, hcell, h.symm⟩
        · rename_i cell hcell
          have hcmem : (pyUpper (pyStrip station), cell) ∈ row := dget_mem hcell
          have hrmem : (pyUpper (pyStrip movement), row) ∈ groupTable := dget_mem hrow
          have hgmem : (aircraft_group, groupTable) ∈
              (if pyUpper (pyStrip operation) = "TURNAROUND" then TURNAROUND_MGT
                else TRANSIT_MGT) := dget_mem hgt
          have hparse := mgt_cells_parse _ htbl _ hgmem _ hrmem _ hcmem sa
          split at h
          · rename_i hp
            rw [hp] at hparse
            simp at hparse
          · rename_i m0 hp
            split at h
            · rename_i errv hacc2
              have hrowparse : ∀ p ∈ row, ∀ b : Bool,
                  (_to_minutes_from_hhmm (_pick_mgt_cell p.2 b)).isSome = true :=
                fun p hp b => mgt_cells_parse _ htbl _ hgmem _ hrmem _ hp b
              split at hacc2
              · obtain ⟨acc2x, hok⟩ := destinationSection_total hrowparse
                  (destNorm destination_station) sa
                  (applyTowing tw (pyUpper (pyStrip movement)) (pyUpper (pyStrip station)) (m0, []))
                have hacc2x : destinationSection (destNorm destination_station) row sa
                    (applyTowing tw (pyUpper (pyStrip movement)) (pyUpper (pyStrip station))
                      (m0, [])) = Except.error errv := hacc2
                rw [hok] at hacc2x
                simp at hacc2x
              · simp at hacc2
            · rename_i acc2 hacc2
              simp at h

/-- C10: a breakdown row whose every stored activity value is the
not-applicable marker `"-"` is still a successful lookup:
`resolve_activity_breakdown("B777-368/B787-10", "TRANSIT", "INTL-INTL")`
returns a result whose `total_or_minimum_ground_time` is `"-"` and whose
every activity value is `"-"`, rather than raising either breakdown error. -/
theorem breakdown_all_dash_row_ok :
    Except.map
      (fun r => (r.total_or_min_ground_time,
        r.activities.all (fun p => p.2 == AVal.str "-")))
      (lookup_activity_breakdown "B777-368/B787-10" "TRANSIT" "INTL-INTL") =
    .ok (AVal.str "-", true) := by decide

/-- C7 counterexample: the total field name does not follow the operation.
The B757 TURNAROUND table stores its total under `"Min Ground Time"` (and
has no `"Total Ground Time"` field), refuting the attribution of
`"Total Ground Time"` to turnaround tables and `"Min Ground Time"` to
transit tables; the resolver still normalizes it (total is 45.0 here). -/
theorem breakdown_field_name_counterexample :
    Except.map
      (fun r => (r.operation, dget r.activities "Total Ground Time",
        dget r.activities "Min Ground Time", r.total_or_min_ground_time))
      (lookup_activity_breakdown "B757" "TURNAROUND" "DOM-DOM") =
    .ok ("TURNAROUND", none, some (AVal.num 45), AVal.num 45) := by decide

/-- C7 (amended): `lookup_activity_breakdown` normalizes the two total
field names (`"Total Ground Time"`, used by the B777/A330/A321 tables, and
`"Min Ground Time"`, used by the B757 and combined tables, regardless of
operation) into the single output field `total_or_min_ground_time`, taking
`"Total Ground Time"` first when present; Scenario E:
`("A321/A320", "TURNAROUND", "DOM-DOM")` gives total 40.0 and a
"Cabin Cleaning" entry that is a resourced value of 10.0 minutes with
resource count 8. -/
theorem breakdown_total_field_normalization :
    (∀ g op mv r, lookup_activity_breakdown g op mv = .ok r →
      ((∃ v, dget r.activities "Total Ground Time" = some v ∧
          r.total_or_min_ground_time = v) ∨
        (dget r.activities "Total Ground Time" = none ∧
          ∃ v, dget r.activities "Min Ground Time" = some v ∧
            r.total_or_min_ground_time = v) ∨
        (dget r.activities "Total Ground Time" = none ∧
          dget r.activities "Min Ground Time" = none ∧
          r.total_or_min_ground_time = AVal.str "-"))) ∧
    Except.map
      (fun r => (r.total_or_min_ground_time, dget r.activities "Cabin Cleaning"))
      (lookup_activity_breakdown "A321/A320" "TURNAROUND" "DOM-DOM") =
    .ok (AVal.num 40, some (AVal.star (_sv 10 8 "*"))) := by
  constructor
  · intro g op mv r h
    unfold lookup_activity_breakdown at h
    simp only [] at h
    split at h
    · simp at h
    · split at h
      · simp at h
      · rename_i row hrow
        simp only [Except.ok.injEq] at h
        subst h
        simp only []
        cases htot : dget row "Total Ground Time" with
        | some v =>
          left
          exact ⟨v, rfl, by simp [List.findSome?, htot]⟩
        | none =>
          cases hmin : dget row "Min Ground Time" with
          | some v =>
            right; left
            exact ⟨rfl, v, rfl, by simp [List.findSome?, htot, hmin]⟩
          | none =>
            right; right
            exact ⟨rfl, rfl, by simp [List.findSome?, htot, hmin]⟩
  · decide

/-- C7 witness: the normalization property applied at Scenario E (the
Scenario E row stores its total under `"Total Ground Time"`, value 40.0). -/
theorem breakdown_total_field_normalization_witness :
    dget [("Blocks IN / Door Opening", AVal.num 1), ("PAX deplaning", AVal.num 8),
      ("Custom Clearance", AVal.str "-"), ("Cabin Cleaning", AVal.star (_sv 10 8 "*")),
      ("Galley Services", AVal.star (_sv 10 1 "**")), ("Cabin Security", AVal.num 3),
      ("Passenger Enplaning", AVal.num 14), ("FNLZTN / Door CLSD", AVal.num 3),
      ("BLOCKS OUT", AVal.num 1), ("Total Ground Time", AVal.num 40)]
      "Total Ground Time" = some (AVal.num 40) := by
  have h := breakdown_total_field_normalization.1 "A321/A320" "TURNAROUND" "DOM-DOM"
    { aircraft_group := "A321/A320", operation := "TURNAROUND", movement := "DOM-DOM",
      activities := [("Blocks IN / Door Opening", AVal.num 1), ("PAX deplaning", AVal.num 8),
        ("Custom Clearance", AVal.str "-"), ("Cabin Cleaning", AVal.star (_sv 10 8 "*")),
        ("Galley Services", AVal.star (_sv 10 1 "**")), ("Cabin Security", AVal.num 3),
        ("Passenger Enplaning", AVal.num 14), ("FNLZTN / Door CLSD", AVal.num 3),
        ("BLOCKS OUT", AVal.num 1), ("Total Ground Time", AVal.num 40)],
      total_or_min_ground_time := AVal.num 40,
      assumptions := ["100% Load Factor"], notes := [] } (by decide)
  rcases h with ⟨v, hv, htot⟩ | ⟨h1, _⟩ | ⟨h1, _⟩
  · simp only [] at htot
    rw [← htot] at hv
    exact hv
  · exact absurd h1 (by decide)
  · exact absurd h1 (by decide)

/-- C8 counterexample: the fallback does not require the caller to pass
exactly the canonical label: `" A330/B787-9 "` (with surrounding spaces) is
not the canonical string, is absent from the table, and still resolves to
2.0 hours because the argument is stripped before both the direct lookup
and the fallback comparison. -/
theorem delivery_alias_strip_counterexample :
    lookup_delivery_before_std_hours " A330/B787-9 " = .ok 2 ∧
    (" A330/B787-9 " : String) ≠ "A330/B787-9" ∧
    dget AIRCRAFT_DELIVERY_BEFORE_STD_HOURS " A330/B787-9 " = none := by
  refine ⟨by decide, by decide, by decide⟩

/-- C8 (amended): `lookup_delivery_before_std_hours` strips its argument,
performs a direct lookup with the stripped key, and only if that fails and
the stripped key equals the canonical label `"A330/B787-9"` falls back to
the reference row authored as `"A300/B787-9"` (2.0 hours); any other
argument whose stripped key is absent from the table raises the
unknown-aircraft-group-for-delivery error. -/
theorem delivery_lookup_behavior :
    (∀ g v, dget AIRCRAFT_DELIVERY_BEFORE_STD_HOURS (pyStrip g) = some v →
      lookup_delivery_before_std_hours g = .ok v) ∧
    (∀ g, dget AIRCRAFT_DELIVERY_BEFORE_STD_HOURS (pyStrip g) = none →
      pyStrip g = "A330/B787-9" →
      lookup_delivery_before_std_hours g = .ok 2) ∧
    (∀ g, dget AIRCRAFT_DELIVERY_BEFORE_STD_HOURS (pyStrip g) = none →
      pyStrip g ≠ "A330/B787-9" →
      lookup_delivery_before_std_hours g =
        .error (.keyError ("No delivery time found for aircraft_group \x27" ++
          g ++ "\x27"))) ∧
    lookup_delivery_before_std_hours "A330/B787-9" = .ok 2 ∧
    dget AIRCRAFT_DELIVERY_BEFORE_STD_HOURS "A330/B787-9" = none := by
  refine ⟨?_, ?_, ?_, by decide, by decide⟩
  · intro g v hv
    unfold lookup_delivery_before_std_hours
    simp only [hv]
  · intro g hn he
    unfold lookup_delivery_before_std_hours
    simp only [hn, he]
    rw [if_pos (by trivial)]
    decide
  · intro g hn he
    unfold lookup_delivery_before_std_hours
    simp only [hn]
    rw [if_neg he]

/-- C8 witness: the fallback branch applied at the canonical label. -/
theorem delivery_lookup_behavior_witness :
    dget AIRCRAFT_DELIVERY_BEFORE_STD_HOURS (pyStrip "A330/B787-9") = none ∧
    lookup_delivery_before_std_hours "A330/B787-9" = .ok 2 := by
  refine ⟨by decide, delivery_lookup_behavior.2.1 "A330/B787-9" (by decide) (by decide)⟩

/-- C6 counterexample: the message `"B777 A330"` matches the alias patterns
of two distinct canonical aircraft groups (`B777-368/B787-10` and
`A330/B787-9`), yet `_extract_aircraft_group` silently returns the first
matching group instead of surfacing the ambiguity (its codomain has no
ambiguity outcome at all). -/
theorem aircraft_alias_first_match_counterexample :
    _aircraft_rx1 "B777 A330" = true ∧
    _aircraft_rx2 "B777 A330" = true ∧
    ("B777-368/B787-10" : String) ≠ "A330/B787-9" ∧
    _extract_aircraft_group "B777 A330" = some "B777-368/B787-10" := by
  refine ⟨by decide, by decide, by decide, by decide⟩

/-- C6 (amended): `_extract_aircraft_group` is a total function — every
input yields exactly one canonical aircraft-group key or `none` — and when
the patterns of two distinct groups both match, it returns the group of the
first matching alias in the fixed order B777 / A330 / A321 / B757 rather
than surfacing the ambiguity. -/
theorem aircraft_alias_total_first_match :
    (∀ msg, _extract_aircraft_group msg = none ∨
      _extract_aircraft_group msg = some "B777-368/B787-10" ∨
      _extract_aircraft_group msg = some "A330/B787-9" ∨
      _extract_aircraft_group msg = some "A321/A320" ∨
      _extract_aircraft_group msg = some "B757") ∧
    (∀ msg, _aircraft_rx1 msg = true →
      _extract_aircraft_group msg = some "B777-368/B787-10") ∧
    (∀ msg, _aircraft_rx1 msg = false → _aircraft_rx2 msg = true →
      _extract_aircraft_group msg = some "A330/B787-9") ∧
    (∀ msg, _aircraft_rx1 msg = false → _aircraft_rx2 msg = false →
      _aircraft_rx3 msg = true →
      _extract_aircraft_group msg = some "A321/A320") ∧
    (∀ msg, _aircraft_rx1 msg = false → _aircraft_rx2 msg = false →
      _aircraft_rx3 msg = false → _aircraft_rx4 msg = true →
      _extract_aircraft_group msg = some "B757") ∧
    (∀ msg, _aircraft_rx1 msg = false → _aircraft_rx2 msg = false →
      _aircraft_rx3 msg = false → _aircraft_rx4 msg = false →
      _extract_aircraft_group msg = none) := by
  refine ⟨?_, ?_, ?_, ?_, ?_, ?_⟩
  · intro msg
    cases h1 : _aircraft_rx1 msg with
    | true =>
      right; left
      simp [_extract_aircraft_group, _AIRCRAFT_ALIASES, List.findSome?, h1]
    | false =>
      cases h2 : _aircraft_rx2 msg with
      | true =>
        right; right; left
        simp [_extract_aircraft_group, _AIRCRAFT_ALIASES, List.findSome?, h1, h2]
      | false =>
        cases h3 : _aircraft_rx3 msg with
        | true =>
          right; right; right; left
          simp [_extract_aircraft_group, _AIRCRAFT_ALIASES, List.findSome?, h1, h2, h3]
        | false =>
          cases h4 : _aircraft_rx4 msg with
          | true =>
            right; right; right; right
            simp [_extract_aircraft_group, _AIRCRAFT_ALIASES, List.findSome?, h1, h2, h3, h4]
          | false =>
            left
            simp [_extract_aircraft_group, _AIRCRAFT_ALIASES, List.findSome?, h1, h2, h3, h4]
  · intro msg h1
    simp [_extract_aircraft_group, _AIRCRAFT_ALIASES, List.findSome?, h1]
  · intro msg h1 h2
    simp [_extract_aircraft_group, _AIRCRAFT_ALIASES, List.findSome?, h1, h2]
  · intro msg h1 h2 h3
    simp [_extract_aircraft_group, _AIRCRAFT_ALIASES, List.findSome?, h1, h2, h3]
  · intro msg h1 h2 h3 h4
    simp [_extract_aircraft_group, _AIRCRAFT_ALIASES, List.findSome?, h1, h2, h3, h4]
  · intro msg h1 h2 h3 h4
    simp [_extract_aircraft_group, _AIRCRAFT_ALIASES, List.findSome?, h1, h2, h3, h4]

/-- C6 witness: the first-match rule applied at the two-pattern message. -/
theorem aircraft_alias_total_first_match_witness :
    _aircraft_rx1 "B777 A330" = true ∧
    _extract_aircraft_group "B777 A330" = some "B777-368/B787-10" :=
  ⟨by decide, aircraft_alias_total_first_match.2.1 "B777 A330" (by decide)⟩

/-- C4: for every `lookup_mgt` call that returns a result,
`adjusted_duration` is at least `base_duration` (comparing the minute
values of the returned `"HH:MM"` strings): the towing, destination-floor
and long-haul steps only ever raise the running value, each observing the
post-adjustment value of the earlier steps. -/
theorem mgt_adjusted_ge_base (operation aircraft_group movement station : String)
    (destination_station : Option String) (sa tw : Bool) (r : MGTLookupResult)
    (h : lookup_mgt operation aircraft_group movement station destination_station sa tw = .ok r) :
    ∃ b a, _to_minutes_from_hhmm r.base_mgt = some b ∧
      _to_minutes_from_hhmm r.adjusted_mgt = some a ∧ b ≤ a := by
  obtain ⟨gt, row, cell, m0, acc2, hval, hgt, hrow, hcell, hm0, hacc2, hr⟩ :=
    lookup_mgt_ok_inv h
  subst hr
  refine ⟨m0, acc2.1, ?_, ?_, ?_⟩
  · simpa using hm0
  · simp only []
    exact to_minutes_from_hhmm_roundtrip acc2.1
  · have h1 : m0 ≤ (applyTowing tw (pyUpper (pyStrip movement))
        (pyUpper (pyStrip station)) (m0, [])).1 :=
      applyTowing_fst_le tw _ _ (m0, [])
    split at hacc2
    · exact le_trans h1 (destinationSection_fst_le hacc2)
    · simp at hacc2
      rw [← hacc2]
      exact h1

/-- C4 witness: Scenario D, where the base is 65 minutes and the adjusted
value 75 minutes. -/
theorem mgt_adjusted_ge_base_witness :
    lookup_mgt "TURNAROUND" "A330/B787-9" "DOM-DOM" "JED" (some "SSH") false false =
      .ok { operation := "TURNAROUND", aircraft_group := "A330/B787-9",
            movement := "DOM-DOM", station_key := "JED", base_mgt := "01:05",
            adjusted_mgt := "01:15",
            applied_rules := ["Turnaround destination minimum: SSH => 01:15 (Security/Baggage Identification)",
              "Note: Mixed flights MGT uses SV aircraft type (see MIXED_FLIGHTS_MGT)"] } ∧
    ∃ b a, _to_minutes_from_hhmm "01:05" = some b ∧
      _to_minutes_from_hhmm "01:15" = some a ∧ b ≤ a := by
  have h : lookup_mgt "TURNAROUND" "A330/B787-9" "DOM-DOM" "JED" (some "SSH") false false =
      .ok { operation := "TURNAROUND", aircraft_group := "A330/B787-9",
            movement := "DOM-DOM", station_key := "JED", base_mgt := "01:05",
            adjusted_mgt := "01:15",
            applied_rules := ["Turnaround destination minimum: SSH => 01:15 (Security/Baggage Identification)",
              "Note: Mixed flights MGT uses SV aircraft type (see MIXED_FLIGHTS_MGT)"] } := by decide
  exact ⟨h, mgt_adjusted_ge_base "TURNAROUND" "A330/B787-9" "DOM-DOM" "JED" (some "SSH")
    false false _ h⟩

/-- C3 counterexample: with base cell `"UK"` of the B777 turnaround
INTL-INTL row — a single-valued cell, `"01:40"` — and destination `MNL`,
setting `is_security_alert_station` changes `adjusted_duration` from
`"01:40"` to `"01:45"` (the flag selects the SA variant of the
`LONG_HAUL_STN` cell), so the flag is observable even when the selected
base cell defines only a single value. -/
theorem mgt_sa_flag_single_cell_counterexample :
    ((dget TURNAROUND_MGT "B777-368/B787-10").bind
      (fun gt => dget gt "INTL-INTL")).bind
      (fun row => dget row "UK") = some (MGTCell.single "01:40") ∧
    Except.map (fun r => (r.base_mgt, r.adjusted_mgt))
      (lookup_mgt "TURNAROUND" "B777-368/B787-10" "INTL-INTL" "UK" (some "MNL") true false) =
      .ok ("01:40", "01:45") ∧
    Except.map (fun r => (r.base_mgt, r.adjusted_mgt))
      (lookup_mgt "TURNAROUND" "B777-368/B787-10" "INTL-INTL" "UK" (some "MNL") false false) =
      .ok ("01:40", "01:40") := by
  refine ⟨by decide, by decide, by decide⟩

/-- C3 (amended): when the base cell selected by `lookup_mgt` is a
(standard, security-alert) pair, `is_security_alert_station = true` makes
`base_duration` the second element and `false` the first; when the cell is
a single value, the flag does not change `base_duration` (although it can
still change `adjusted_duration` through the `LONG_HAUL_STN` cell, as the
counterexample shows); Scenario B:
`(TURNAROUND, B777-368/B787-10, INTL-INTL, INT_STNS, sa=true)` selects the
SA variant and returns `adjusted_duration` of 100 minutes. -/
theorem mgt_sa_variant_selection :
    (∀ a b, _pick_mgt_cell (.pair a b) true = b ∧ _pick_mgt_cell (.pair a b) false = a) ∧
    (∀ v sa, _pick_mgt_cell (.single v) sa = v) ∧
    (∀ operation aircraft_group movement station destination_station sa tw r,
      lookup_mgt operation aircraft_group movement station destination_station sa tw = .ok r →
      ∃ groupTable row cell,
        dget (if pyUpper (pyStrip operation) = "TURNAROUND" then TURNAROUND_MGT
          else TRANSIT_MGT) aircraft_group = some groupTable ∧
        dget groupTable (pyUpper (pyStrip movement)) = some row ∧
        dget row (pyUpper (pyStrip station)) = some cell ∧
        r.base_mgt = _pick_mgt_cell cell sa) ∧
    Except.map (fun r => (_to_minutes_from_hhmm r.adjusted_mgt))
      (lookup_mgt "TURNAROUND" "B777-368/B787-10" "INTL-INTL" "INT_STNS" none true false) =
      .ok (some 100) := by
  refine ⟨fun a b => ⟨rfl, rfl⟩, fun v sa => rfl, ?_, by decide⟩
  intro operation aircraft_group movement station destination_station sa tw r h
  obtain ⟨gt, row, cell, m0, acc2, hval, hgt, hrow, hcell, hm0, hacc2, hr⟩ :=
    lookup_mgt_ok_inv h
  subst hr
  exact ⟨gt, row, cell, hgt, hrow, hcell, rfl⟩

/-- C3 witness: the base-cell selection applied at Scenario B. -/
theorem mgt_sa_variant_selection_witness :
    lookup_mgt "TURNAROUND" "B777-368/B787-10" "INTL-INTL" "INT_STNS" none true false =
      .ok { operation := "TURNAROUND", aircraft_group := "B777-368/B787-10",
            movement := "INTL-INTL", station_key := "INT_STNS", base_mgt := "01:40",
            adjusted_mgt := "01:40",
            applied_rules := ["Note: Mixed flights MGT uses SV aircraft type (see MIXED_FLIGHTS_MGT)"] } ∧
    ∃ groupTable row cell,
      dget (if pyUpper (pyStrip "TURNAROUND") = "TURNAROUND" then TURNAROUND_MGT
        else TRANSIT_MGT) "B777-368/B787-10" = some groupTable ∧
      dget groupTable (pyUpper (pyStrip "INTL-INTL")) = some row ∧
      dget row (pyUpper (pyStrip "INT_STNS")) = some cell ∧
      ("01:40" : String) = _pick_mgt_cell cell true := by
  have h : lookup_mgt "TURNAROUND" "B777-368/B787-10" "INTL-INTL" "INT_STNS" none true false =
      .ok { operation := "TURNAROUND", aircraft_group := "B777-368/B787-10",
            movement := "INTL-INTL", station_key := "INT_STNS", base_mgt := "01:40",
            adjusted_mgt := "01:40",
            applied_rules := ["Note: Mixed flights MGT uses SV aircraft type (see MIXED_FLIGHTS_MGT)"] } := by decide
  exact ⟨h, mgt_sa_variant_selection.2.2.1 "TURNAROUND" "B777-368/B787-10" "INTL-INTL"
    "INT_STNS" none true false _ h⟩

/-- C5: under a valid operation, every failing MGT lookup raises one of
three distinct error kinds identifying the unresolved dimension (the
discriminator `errDim` reads `'a'` for an unknown aircraft group, `'m'`
for an unknown movement and `'s'` for an unknown station, so the kinds
never collapse); Scenario F:
`(TRANSIT, A321/A320, INTL-INTL, LHR)` fails with the unknown-station kind
because that row defines only `INT_STNS`. -/
theorem mgt_error_three_kinds
    (operation aircraft_group movement station : String)
    (destination_station : Option String) (sa tw : Bool)
    (hval : pyUpper (pyStrip operation) = "TURNAROUND" ∨
      pyUpper (pyStrip operation) = "TRANSIT") :
    (∀ e, lookup_mgt operation aircraft_group movement station destination_station sa tw =
        .error e →
      ∃ msg, e = .keyError msg ∧
        (errDim msg = some 'a' ∨ errDim msg = some 'm' ∨ errDim msg = some 's') ∧
        (errDim msg = some 'a' ↔
          dget (if pyUpper (pyStrip operation) = "TURNAROUND" then TURNAROUND_MGT
            else TRANSIT_MGT) aircraft_group = none) ∧
        (errDim msg = some 'm' ↔
          ∃ groupTable,
            dget (if pyUpper (pyStrip operation) = "TURNAROUND" then TURNAROUND_MGT
              else TRANSIT_MGT) aircraft_group = some groupTable ∧
            dget groupTable (pyUpper (pyStrip movement)) = none) ∧
        (errDim msg = some 's' ↔
          ∃ groupTable row,
            dget (if pyUpper (pyStrip operation) = "TURNAROUND" then TURNAROUND_MGT
              else TRANSIT_MGT) aircraft_group = some groupTable ∧
            dget groupTable (pyUpper (pyStrip movement)) = some row ∧
            dget row (pyUpper (pyStrip station)) = none)) ∧
    lookup_mgt "TRANSIT" "A321/A320" "INTL-INTL" "LHR" none false false =
      .error (.keyError "Unknown station \x27LHR\x27 for op=TRANSIT, aircraft_group=A321/A320, movement=INTL-INTL") := by
  constructor
  · intro e he
    rcases lookup_mgt_error_inv hval he with
      ⟨hgt, heq⟩ | ⟨gt, hgt, hmv, heq⟩ | ⟨gt, row, hgt, hmv, hst, heq⟩
    · refine ⟨_, heq, Or.inl (errDim_group _), ?_, ?_, ?_⟩
      · exact ⟨fun _ => hgt, fun _ => errDim_group _⟩
      · constructor
        · intro hm
          exact absurd ((errDim_group _).symm.trans hm) (by decide)
        · rintro ⟨gt, hgt2, -⟩
          rw [hgt] at hgt2
          exact absurd hgt2 (by simp)
      · constructor
        · intro hs
          exact absurd ((errDim_group _).symm.trans hs) (by decide)
        · rintro ⟨gt, row, hgt2, -, -⟩
          rw [hgt] at hgt2
          exact absurd hgt2 (by simp)
    · refine ⟨_, heq, Or.inr (Or.inl (errDim_movement _ _)), ?_, ?_, ?_⟩
      · constructor
        · intro ha
          exact absurd ((errDim_movement _ _).symm.trans ha) (by decide)
        · intro hnone
          rw [hgt] at hnone
          exact absurd hnone (by simp)
      · exact ⟨fun _ => ⟨gt, hgt, hmv⟩, fun _ => errDim_movement _ _⟩
      · constructor
        · intro hs
          exact absurd ((errDim_movement _ _).symm.trans hs) (by decide)
        · rintro ⟨gt2, row, hgt2, hmv2, -⟩
          rw [hgt] at hgt2
          simp at hgt2
          rw [← hgt2] at hmv2
          rw [hmv] at hmv2
          exact absurd hmv2 (by simp)
    · refine ⟨_, heq, Or.inr (Or.inr (errDim_station _ _ _ _)), ?_, ?_, ?_⟩
      · constructor
        · intro ha
          exact absurd ((errDim_station _ _ _ _).symm.trans ha) (by decide)
        · intro hnone
          rw [hgt] at hnone
          exact absurd hnone (by simp)
      · constructor
        · intro hm
          exact absurd ((errDim_station _ _ _ _).symm.trans hm) (by decide)
        · rintro ⟨gt2, hgt2, hmv2⟩
          rw [hgt] at hgt2
          simp at hgt2
          rw [← hgt2] at hmv2
          rw [hmv] at hmv2
          exact absurd hmv2 (by simp)
      · exact ⟨fun _ => ⟨gt, row, hgt, hmv, hst⟩, fun _ => errDim_station _ _ _ _⟩
  · decide

/-- C5 witness: the three-kind classification applied at Scenario F. -/
theorem mgt_error_three_kinds_witness :
    lookup_mgt "TRANSIT" "A321/A320" "INTL-INTL" "LHR" none false false =
      .error (.keyError "Unknown station \x27LHR\x27 for op=TRANSIT, aircraft_group=A321/A320, movement=INTL-INTL") ∧
    ∃ msg, (PyErr.keyError "Unknown station \x27LHR\x27 for op=TRANSIT, aircraft_group=A321/A320, movement=INTL-INTL") =
        .keyError msg ∧
      (errDim msg = some 'a' ∨ errDim msg = some 'm' ∨ errDim msg = some 's') := by
  have hcall : lookup_mgt "TRANSIT" "A321/A320" "INTL-INTL" "LHR" none false false =
      .error (.keyError "Unknown station \x27LHR\x27 for op=TRANSIT, aircraft_group=A321/A320, movement=INTL-INTL") := by
    decide
  have h := (mgt_error_three_kinds "TRANSIT" "A321/A320" "INTL-INTL" "LHR" none false false
    (by decide)).1 _ hcall
  obtain ⟨msg, hmsg, hdim, -, -, -⟩ := h
  exact ⟨hcall, msg, hmsg, hdim⟩

/-- If the normalized operation is valid, lowercasing the operation,
movement and station arguments does not change the call at all (the three
are normalized by `strip().upper()` before use). -/
theorem lookup_mgt_lower_eq (operation aircraft_group movement station : String)
    (destination_station : Option String) (sa tw : Bool)
    (hval : pyUpper (pyStrip operation) = "TURNAROUND" ∨
      pyUpper (pyStrip operation) = "TRANSIT") :
    lookup_mgt (pyLower operation) aircraft_group (pyLower movement) (pyLower station)
      destination_station sa tw =
    lookup_mgt operation aircraft_group movement station destination_station sa tw := by
  unfold lookup_mgt
  simp only [pyNorm_pyLower]
  rw [if_neg (not_not_intro hval), if_neg (not_not_intro hval)]

/-- C9: `lookup_mgt` strips and uppercases operation, movement and station
but matches `aircraft_group` exactly as passed: every successful call
returns the same result when those three arguments are lowercased, while a
lowercase aircraft group such as `"a321/a320"` raises the
unknown-aircraft-group error. -/
theorem mgt_case_normalization :
    (∀ operation aircraft_group movement station destination_station sa tw r,
      lookup_mgt operation aircraft_group movement station destination_station sa tw = .ok r →
      lookup_mgt (pyLower operation) aircraft_group (pyLower movement) (pyLower station)
        destination_station sa tw = .ok r) ∧
    lookup_mgt "TURNAROUND" "a321/a320" "DOM-DOM" "JED" none false false =
      .error (.keyError "Unknown aircraft_group: a321/a320") := by
  constructor
  · intro operation aircraft_group movement station destination_station sa tw r h
    obtain ⟨-, -, -, -, -, hval, -⟩ := lookup_mgt_ok_inv h
    rw [lookup_mgt_lower_eq operation aircraft_group movement station
      destination_station sa tw hval]
    exact h
  · decide

/-- C9 witness: the lowercase call for Scenario A returns the same
result as the uppercase call. -/
theorem mgt_case_normalization_witness :
    lookup_mgt (pyLower "TURNAROUND") "A321/A320" (pyLower "DOM-DOM") (pyLower "JED")
      none false false =
      .ok { operation := "TURNAROUND", aircraft_group := "A321/A320",
            movement := "DOM-DOM", station_key := "JED", base_mgt := "00:45",
            adjusted_mgt := "00:45",
            applied_rules := ["Note: Mixed flights MGT uses SV aircraft type (see MIXED_FLIGHTS_MGT)"] } := by
  have h : lookup_mgt "TURNAROUND" "A321/A320" "DOM-DOM" "JED" none false false =
      .ok { operation := "TURNAROUND", aircraft_group := "A321/A320",
            movement := "DOM-DOM", station_key := "JED", base_mgt := "00:45",
            adjusted_mgt := "00:45",
            applied_rules := ["Note: Mixed flights MGT uses SV aircraft type (see MIXED_FLIGHTS_MGT)"] } := by
    decide
  exact mgt_case_normalization.1 "TURNAROUND" "A321/A320" "DOM-DOM" "JED" none false false _ h

/-- No MGT table row contains the station key `"JED-T1"`. -/
theorem mgt_no_jed_t1_key : ∀ tbl ∈ [TURNAROUND_MGT, TRANSIT_MGT], ∀ p1 ∈ tbl,
    ∀ p2 ∈ p1.2, ∀ p3 ∈ p2.2, p3.1 ≠ "JED-T1" := by decide

/-- For `DOM-DOM` movements, the towing overlay is the identity. -/
theorem applyTowing_dom_dom (tw : Bool) (st : String) (acc : Nat × List String) :
    applyTowing tw "DOM-DOM" st acc = acc := by
  unfold applyTowing
  rw [if_neg]
  rintro ⟨-, h2, -⟩
  rcases h2 with h2 | h2 <;> exact absurd h2 (by decide)

/-- C2: the towing overlay adds exactly 20 minutes and appends the towing
trace entry exactly when the flag is set, the movement is `DOM-INTL` or
`INTL-DOM`, and the station key is `JED` or `RUH` (the third key in the
source condition, `JED-T1`, occurs in no table row, so no successful call
has it); for `DOM-DOM` toggling the flag never changes the call; Scenario
C: `(TURNAROUND, A321/A320, DOM-INTL, JED, towing)` gives base 50, adjusted
70, with the towing entry in the trace. -/
theorem mgt_towing_rule :
    (∀ (tw : Bool) (mv st : String) (v : Nat) (tr : List String),
      ((tw = true ∧ (mv = "DOM-INTL" ∨ mv = "INTL-DOM") ∧
          (st = "JED" ∨ st = "RUH" ∨ st = "JED-T1")) →
        applyTowing tw mv st (v, tr) = (v + 20,
          tr ++ ["Local towing rule: +20 minutes at JED-T1/RUH for DOM-INTL or INTL-DOM"])) ∧
      (¬(tw = true ∧ (mv = "DOM-INTL" ∨ mv = "INTL-DOM") ∧
          (st = "JED" ∨ st = "RUH" ∨ st = "JED-T1")) →
        applyTowing tw mv st (v, tr) = (v, tr))) ∧
    (∀ operation aircraft_group movement station destination_station sa tw r,
      lookup_mgt operation aircraft_group movement station destination_station sa tw = .ok r →
      r.station_key ≠ "JED-T1") ∧
    (∀ operation aircraft_group movement station destination_station sa tw r,
      lookup_mgt operation aircraft_group movement station destination_station sa tw = .ok r →
      ("Local towing rule: +20 minutes at JED-T1/RUH for DOM-INTL or INTL-DOM" ∈
          r.applied_rules ↔
        tw = true ∧ (r.movement = "DOM-INTL" ∨ r.movement = "INTL-DOM") ∧
          (r.station_key = "JED" ∨ r.station_key = "RUH"))) ∧
    (∀ operation aircraft_group movement station destination_station sa,
      pyUpper (pyStrip movement) = "DOM-DOM" →
      lookup_mgt operation aircraft_group movement station destination_station sa true =
      lookup_mgt operation aircraft_group movement station destination_station sa false) ∧
    Except.map (fun r => (_to_minutes_from_hhmm r.base_mgt,
        _to_minutes_from_hhmm r.adjusted_mgt,
        r.applied_rules.contains
          "Local towing rule: +20 minutes at JED-T1/RUH for DOM-INTL or INTL-DOM"))
      (lookup_mgt "TURNAROUND" "A321/A320" "DOM-INTL" "JED" none false true) =
      .ok (some 50, some 70, true) := by
  have htbl : ∀ (operation : String),
      (if pyUpper (pyStrip operation) = "TURNAROUND" then TURNAROUND_MGT
        else TRANSIT_MGT) ∈ [TURNAROUND_MGT, TRANSIT_MGT] := by
    intro operation; split <;> simp
  have hstkey : ∀ operation aircraft_group movement station
      (destination_station : Option String) (sa tw : Bool) (r : MGTLookupResult),
      lookup_mgt operation aircraft_group movement station destination_station sa tw = .ok r →
      r.station_key ≠ "JED-T1" := by
    intro operation aircraft_group movement station destination_station sa tw r h
    obtain ⟨gt, row, cell, m0, acc2, hval, hgt, hrow, hcell, hm0, hacc2, hr⟩ :=
      lookup_mgt_ok_inv h
    subst hr
    simp only []
    exact mgt_no_jed_t1_key _ (htbl operation) _ (dget_mem hgt) _ (dget_mem hrow)
      _ (dget_mem hcell)
  refine ⟨?_, hstkey, ?_, ?_, by decide⟩
  · intro tw mv st v tr
    constructor
    · intro hc
      unfold applyTowing
      rw [if_pos hc]
      rfl
    · intro hc
      unfold applyTowing
      rw [if_neg hc]
  · intro operation aircraft_group movement station destination_station sa tw r h
    have hne := hstkey operation aircraft_group movement station destination_station
      sa tw r h
    obtain ⟨gt, row, cell, m0, acc2, hval, hgt, hrow, hcell, hm0, hacc2, hr⟩ :=
      lookup_mgt_ok_inv h
    have hstne : pyUpper (pyStrip station) ≠ "JED-T1" := by
      rw [hr] at hne
      exact hne
    subst hr
    simp only []
    -- the trace of the towing step
    have hext : ∃ extra,
        acc2.2 = (applyTowing tw (pyUpper (pyStrip movement))
          (pyUpper (pyStrip station)) (m0, [])).2 ++ extra ∧
        "Local towing rule: +20 minutes at JED-T1/RUH for DOM-INTL or INTL-DOM" ∉ extra := by
      split at hacc2
      · obtain ⟨extra, hsnd, hmem⟩ := destinationSection_snd hacc2
        refine ⟨extra, hsnd, fun hin => ?_⟩
        have := hmem _ hin
        simp at this
      · simp at hacc2
        exact ⟨[], by rw [← hacc2]; simp, by simp⟩
    obtain ⟨extra, hsnd, hnotin⟩ := hext
    rw [hsnd]
    constructor
    · intro hin
      simp only [List.mem_append] at hin
      rcases hin with (hin | hin) | hin
      · -- the entry is in the towing step trace
        unfold applyTowing at hin
        split at hin
        · rename_i hcond
          obtain ⟨h1, h2, h3⟩ := hcond
          refine ⟨by simpa using h1, h2, ?_⟩
          rcases h3 with h3 | h3 | h3
          · exact Or.inl h3
          · exact Or.inr h3
          · exact absurd h3 hstne
        · simp at hin
      · exact absurd hin hnotin
      · simp at hin
    · rintro ⟨h1, h2, h3⟩
      simp only [List.mem_append]
      left; left
      unfold applyTowing
      rw [if_pos ⟨by simp [h1], h2, by tauto⟩]
      simp
  · intro operation aircraft_group movement station destination_station sa hmv
    unfold lookup_mgt
    simp only [hmv, applyTowing_dom_dom]

/-- C2 witness: the towing trace characterization applied at Scenario C. -/
theorem mgt_towing_rule_witness :
    lookup_mgt "TURNAROUND" "A321/A320" "DOM-INTL" "JED" none false true =
      .ok { operation := "TURNAROUND", aircraft_group := "A321/A320",
            movement := "DOM-INTL", station_key := "JED", base_mgt := "00:50",
            adjusted_mgt := "01:10",
            applied_rules := ["Local towing rule: +20 minutes at JED-T1/RUH for DOM-INTL or INTL-DOM",
              "Note: Mixed flights MGT uses SV aircraft type (see MIXED_FLIGHTS_MGT)"] } ∧
    ("Local towing rule: +20 minutes at JED-T1/RUH for DOM-INTL or INTL-DOM" ∈
        (["Local towing rule: +20 minutes at JED-T1/RUH for DOM-INTL or INTL-DOM",
          "Note: Mixed flights MGT uses SV aircraft type (see MIXED_FLIGHTS_MGT)"] : List String) ↔
      true = true ∧ (("DOM-INTL" : String) = "DOM-INTL" ∨ ("DOM-INTL" : String) = "INTL-DOM") ∧
        (("JED" : String) = "JED" ∨ ("JED" : String) = "RUH")) := by
  have h : lookup_mgt "TURNAROUND" "A321/A320" "DOM-INTL" "JED" none false true =
      .ok { operation := "TURNAROUND", aircraft_group := "A321/A320",
            movement := "DOM-INTL", station_key := "JED", base_mgt := "00:50",
            adjusted_mgt := "01:10",
            applied_rules := ["Local towing rule: +20 minutes at JED-T1/RUH for DOM-INTL or INTL-DOM",
              "Note: Mixed flights MGT uses SV aircraft type (see MIXED_FLIGHTS_MGT)"] } := by
    decide
  exact ⟨h, mgt_towing_rule.2.2.1 "TURNAROUND" "A321/A320" "DOM-INTL" "JED" none false
    true _ h⟩

theorem applyDestFloors_ge_usa (acc : Nat × List String) :
    170 ≤ (applyDestFloors "USA" acc).1 := by
  unfold applyDestFloors
  rw [if_pos rfl]
  unfold TURNAROUND_MIN_TO_USA_MINUTES
  split
  · exact Nat.le.refl
  · rename_i hlt
    omega

theorem applyDestFloors_ge_usa_stations :
    ∀ d ∈ USA_STATIONS_IN_HINT_LIST, ∀ acc : Nat × List String,
    120 ≤ (applyDestFloors d acc).1 := by
  intro d hd acc
  simp only [USA_STATIONS_IN_HINT_LIST, List.mem_cons,
    List.mem_singleton, List.not_mem_nil, or_false] at hd
  have hset : d ∈ USA_STATIONS_IN_HINT_LIST := by
    rcases hd with rfl | rfl | rfl | rfl <;> decide
  have hnusa : ¬(d = "USA") := by
    rcases hd with rfl | rfl | rfl | rfl <;> decide
  unfold applyDestFloors
  rw [if_neg hnusa, if_pos hset]
  unfold TURNAROUND_MIN_TO_ALL_USA_STATIONS_MINUTES
  split
  · exact Nat.le.refl
  · rename_i hlt
    omega

theorem applyDestFloors_ge_kan (acc : Nat × List String) :
    120 ≤ (applyDestFloors "KAN" acc).1 := by
  unfold applyDestFloors
  rw [if_neg (by decide), if_neg (by decide), if_pos rfl]
  unfold TURNAROUND_MIN_TO_KAN_MINUTES
  split
  · exact Nat.le.refl
  · rename_i hlt
    omega

theorem applyDestFloors_ge_ssh (acc : Nat × List String) :
    75 ≤ (applyDestFloors "SSH" acc).1 := by
  unfold applyDestFloors
  rw [if_neg (by decide), if_neg (by decide), if_neg (by decide), if_pos rfl]
  unfold TURNAROUND_MIN_TO_SSH_MINUTES
  split
  · exact Nat.le.refl
  · rename_i hlt
    omega

/-- C1: under TURNAROUND with a destination supplied, every destination
floor whose predicate matches raises the running value to its floor when
currently below it, appending one trace entry per floor actually applied
(destination `"USA"` to 170 minutes, a destination in `{YYZ, IAD, LAX,
JFK}` to 120, `"KAN"` to 120, `"SSH"` to 75; the predicates are pairwise
disjoint, so applying every matching rule coincides with the source
`elif` chain); consequently the returned `adjusted_duration` is at least
the matching floor, and Scenario D returns base 65 and adjusted 75 with
the SSH trace entry. -/
theorem mgt_destination_floor_rules :
    (∀ (v : Nat) (tr : List String),
      applyDestFloors "USA" (v, tr) =
        if v < 170 then (170, tr ++ ["Turnaround destination minimum: USA => 02:50"])
        else (v, tr)) ∧
    (∀ d ∈ USA_STATIONS_IN_HINT_LIST, ∀ (v : Nat) (tr : List String),
      applyDestFloors d (v, tr) =
        if v < 120 then
          (120, tr ++ ["Turnaround destination minimum: USA stations (JFK/LAX/IAD/YYZ) => 02:00"])
        else (v, tr)) ∧
    (∀ (v : Nat) (tr : List String),
      applyDestFloors "KAN" (v, tr) =
        if v < 120 then (120, tr ++ ["Turnaround destination minimum: KAN => 02:00"])
        else (v, tr)) ∧
    (∀ (v : Nat) (tr : List String),
      applyDestFloors "SSH" (v, tr) =
        if v < 75 then
          (75, tr ++ ["Turnaround destination minimum: SSH => 01:15 (Security/Baggage Identification)"])
        else (v, tr)) ∧
    (∀ operation aircraft_group movement station destination_station sa tw r D,
      lookup_mgt operation aircraft_group movement station destination_station sa tw = .ok r →
      pyUpper (pyStrip operation) = "TURNAROUND" →
      destNorm destination_station = some D → D ≠ "" →
      (D = "USA" → ∃ a, _to_minutes_from_hhmm r.adjusted_mgt = some a ∧ 170 ≤ a) ∧
      (D ∈ USA_STATIONS_IN_HINT_LIST →
        ∃ a, _to_minutes_from_hhmm r.adjusted_mgt = some a ∧ 120 ≤ a) ∧
      (D = "KAN" → ∃ a, _to_minutes_from_hhmm r.adjusted_mgt = some a ∧ 120 ≤ a) ∧
      (D = "SSH" → ∃ a, _to_minutes_from_hhmm r.adjusted_mgt = some a ∧ 75 ≤ a)) ∧
    Except.map (fun r => (_to_minutes_from_hhmm r.base_mgt,
        _to_minutes_from_hhmm r.adjusted_mgt,
        r.applied_rules.contains
          "Turnaround destination minimum: SSH => 01:15 (Security/Baggage Identification)"))
      (lookup_mgt "TURNAROUND" "A330/B787-9" "DOM-DOM" "JED" (some "SSH") false false) =
      .ok (some 65, some 75, true) := by
  refine ⟨?_, ?_, ?_, ?_, ?_, by decide⟩
  · intro v tr
    unfold applyDestFloors
    rw [if_pos rfl]
    rfl
  · intro d hd v tr
    simp only [USA_STATIONS_IN_HINT_LIST, List.mem_cons,
      List.mem_singleton, List.not_mem_nil, or_false] at hd
    rcases hd with rfl | rfl | rfl | rfl <;>
      · unfold applyDestFloors
        rw [if_neg (by decide), if_pos (by decide)]
        rfl
  · intro v tr
    unfold applyDestFloors
    rw [if_neg (by decide), if_neg (by decide), if_pos rfl]
    rfl
  · intro v tr
    unfold applyDestFloors
    rw [if_neg (by decide), if_neg (by decide), if_neg (by decide), if_pos rfl]
    rfl
  · intro operation aircraft_group movement station destination_station sa tw r D
      h hop hdst hne
    obtain ⟨gt, row, cell, m0, acc2, hval, hgt, hrow, hcell, hm0, hacc2, hr⟩ :=
      lookup_mgt_ok_inv h
    subst hr
    simp only []
    rw [if_pos hop, hdst] at hacc2
    unfold destinationSection at hacc2
    simp only [] at hacc2
    rw [if_neg hne] at hacc2
    have hlh : (applyDestFloors D (applyTowing tw (pyUpper (pyStrip movement))
        (pyUpper (pyStrip station)) (m0, []))).1 ≤ acc2.1 :=
      applyLongHaul_fst_le hacc2
    refine ⟨?_, ?_, ?_, ?_⟩
    · rintro rfl
      exact ⟨acc2.1, to_minutes_from_hhmm_roundtrip acc2.1,
        le_trans (applyDestFloors_ge_usa _) hlh⟩
    · intro hset
      exact ⟨acc2.1, to_minutes_from_hhmm_roundtrip acc2.1,
        le_trans (applyDestFloors_ge_usa_stations D hset _) hlh⟩
    · rintro rfl
      exact ⟨acc2.1, to_minutes_from_hhmm_roundtrip acc2.1,
        le_trans (applyDestFloors_ge_kan _) hlh⟩
    · rintro rfl
      exact ⟨acc2.1, to_minutes_from_hhmm_roundtrip acc2.1,
        le_trans (applyDestFloors_ge_ssh _) hlh⟩

/-- C1 witness: the SSH floor bound applied at Scenario D. -/
theorem mgt_destination_floor_rules_witness :
    lookup_mgt "TURNAROUND" "A330/B787-9" "DOM-DOM" "JED" (some "SSH") false false =
      .ok { operation := "TURNAROUND", aircraft_group := "A330/B787-9",
            movement := "DOM-DOM", station_key := "JED", base_mgt := "01:05",
            adjusted_mgt := "01:15",
            applied_rules := ["Turnaround destination minimum: SSH => 01:15 (Security/Baggage Identification)",
              "Note: Mixed flights MGT uses SV aircraft type (see MIXED_FLIGHTS_MGT)"] } ∧
    ∃ a, _to_minutes_from_hhmm "01:15" = some a ∧ 75 ≤ a := by
  have h : lookup_mgt "TURNAROUND" "A330/B787-9" "DOM-DOM" "JED" (some "SSH") false false =
      .ok { operation := "TURNAROUND", aircraft_group := "A330/B787-9",
            movement := "DOM-DOM", station_key := "JED", base_mgt := "01:05",
            adjusted_mgt := "01:15",
            applied_rules := ["Turnaround destination minimum: SSH => 01:15 (Security/Baggage Identification)",
              "Note: Mixed flights MGT uses SV aircraft type (see MIXED_FLIGHTS_MGT)"] } := by
    decide
  exact ⟨h, (mgt_destination_floor_rules.2.2.2.2.1 "TURNAROUND" "A330/B787-9" "DOM-DOM"
    "JED" (some "SSH") false false _ "SSH" h (by decide) (by decide) (by decide)).2.2.2 rfl⟩
